import Mathlib

set_option maxHeartbeats 1000000

set_option maxRecDepth 8000

set_option allowUnsafeReducibility true

/- `Rat.add`, `Rat.sub`, `Rat.mul`, `Rat.inv` are `@[irreducible]` in the
library, which blocks `decide`-style evaluation of the model on concrete
inputs; restore the default transparency (the kernel is unaffected). -/
attribute [semireducible] Rat.add Rat.sub Rat.mul Rat.inv Rat.ofScientific

/-!
Verification development for the finfeed consolidation and dashboard scripts
(`scripts/consolidate_csv.py`, `scripts/consolidate_conta_corrente.py`,
`scripts/categories.py`, `scripts/build_dashboard.py`), covering the
aggregation engine, the category classifier, the loaders and the embedded
client-side JavaScript re-implementations of the aggregation functions.

Modelling conventions:
* Python/JavaScript floating-point money values are modelled as exact
  rationals (`ℚ`).  Python `round(x, n)` is round-half-to-even at `n`
  decimals on the exact value (`rhe`); JavaScript `Math.round(x)` is
  `⌊x + 1/2⌋` (`jsRound`).
* Python strings are modelled as lists of characters (`Str`).  `str.lower`
  is modelled on ASCII letters; `float()` / `int()` parsing is modelled on
  the plain decimal forms occurring in the data files (optional sign,
  digits, optional fractional part; no exponents, underscores or inf/nan).
* Dict iteration order (Python `dict` / non-numeric JavaScript object
  keys) is insertion order, modelled by association lists built with
  `upsert`; both `list.sort` with a key and ES2019 `Array.prototype.sort`
  are stable, modelled by `List.insertionSort`.
-/

/-- Python strings are modelled as lists of characters. -/
abbrev Str := List Char

/-- Coerce a Lean string literal to the model type. -/
def str (x : String) : Str := x.data

/-- Characters stripped by Python `str.strip()`. -/
def isPyWs (c : Char) : Bool :=
  c = ' ' || c = '\t' || c = '\n' || c = '\r' || c = Char.ofNat 11 || c = Char.ofNat 12

/-- Python `str.strip()`. -/
def pyStrip (s : Str) : Str :=
  ((s.dropWhile isPyWs).reverse.dropWhile isPyWs).reverse

/-- ASCII lower-casing of one character (model of `str.lower` on the ASCII range). -/
def lowerChar (c : Char) : Char :=
  if 65 ≤ c.toNat ∧ c.toNat ≤ 90 then Char.ofNat (c.toNat + 32) else c

/-- Python `str.lower()`, modelled on ASCII letters. -/
def pyLower (s : Str) : Str := s.map lowerChar

/-- Python `str.replace(a, b)` for one-character patterns (the scripts only
replace `","` by `"."`). -/
def replaceChar (a b : Char) (s : Str) : Str :=
  s.map (fun c => if c = a then b else c)

/-- Python `str.split(sep)` for a one-character separator (the scripts only
split on `"/"`, `"."` and `"-"`). -/
def splitOnChar (sep : Char) : Str → List Str
  | [] => [[]]
  | c :: cs =>
    match splitOnChar sep cs with
    | [] => [[]]
    | h :: t => if c = sep then [] :: h :: t else (c :: h) :: t

/-- Does `nd` occur as a contiguous subsequence of the second list?
Model of the Python `in` operator on strings. -/
def containsSeq (nd : Str) : Str → Bool
  | [] => nd.isEmpty
  | c :: cs => nd.isPrefixOf (c :: cs) || containsSeq nd cs

/-- Python `int(s)` restricted to plain digit strings. -/
def toNatDigits? (s : Str) : Option ℕ :=
  if s ≠ [] ∧ s.all Char.isDigit then
    some (s.foldl (fun acc c => 10 * acc + (c.toNat - 48)) 0)
  else none

/-- Unsigned decimal literal: `digits`, `digits.digits`, `digits.` or `.digits`. -/
def parseUnsigned? (s : Str) : Option ℚ :=
  match splitOnChar '.' s with
  | [i] => (toNatDigits? i).map (fun n => (n : ℚ))
  | [i, f] =>
    if i = [] ∧ f = [] then none
    else
      match (if i = [] then some 0 else toNatDigits? i),
            (if f = [] then some 0 else toNatDigits? f) with
      | some ip, some fp => some ((ip : ℚ) + (fp : ℚ) / (10 : ℚ) ^ f.length)
      | _, _ => none
  | _ => none

/-- Python `float(s)` on the decimal forms occurring in the data files. -/
def parseFloat? (s : Str) : Option ℚ :=
  match s with
  | '-' :: r => (parseUnsigned? r).map Neg.neg
  | '+' :: r => parseUnsigned? r
  | r => parseUnsigned? r

/-- Round half to even to an integer, Python `round`-style, on the exact value. -/
def rhe (q : ℚ) : ℤ :=
  if q - q.floor < 1/2 then q.floor
  else if 1/2 < q - q.floor then q.floor + 1
  else if 2 ∣ q.floor then q.floor else q.floor + 1

/-- Python `round(x, 2)` as an exact-rational operation. -/
def pyRound2 (q : ℚ) : ℚ := (rhe (q * 100) : ℚ) / 100

/-- Python `round(x, 1)` as an exact-rational operation. -/
def pyRound1 (q : ℚ) : ℚ := (rhe (q * 10) : ℚ) / 10

/-- JavaScript `Math.round` (half towards positive infinity). -/
def jsRound (q : ℚ) : ℤ := (q + 1/2).floor

/-- JavaScript `Math.round(x * 100) / 100`. -/
def jsRound2 (q : ℚ) : ℚ := (jsRound (q * 100) : ℚ) / 100

/-- JavaScript `Math.round(x * 10) / 10`. -/
def jsRound1 (q : ℚ) : ℚ := (jsRound (q * 10) : ℚ) / 10

theorem ratFloor_eq_floor (q : ℚ) : q.floor = ⌊q⌋ :=
  (Rat.floor_def' q).trans Rat.floor_def.symm

theorem floor_le_rhe (q : ℚ) : ⌊q⌋ ≤ rhe q := by
  unfold rhe
  rw [ratFloor_eq_floor]
  split_ifs <;> omega

theorem rhe_le_floor_add_one (q : ℚ) : rhe q ≤ ⌊q⌋ + 1 := by
  unfold rhe
  rw [ratFloor_eq_floor]
  split_ifs <;> omega

theorem rhe_intCast (n : ℤ) : rhe (n : ℚ) = n := by
  unfold rhe
  rw [ratFloor_eq_floor, Int.floor_intCast]
  norm_num

theorem rhe_mono {a b : ℚ} (h : a ≤ b) : rhe a ≤ rhe b := by
  rcases lt_or_eq_of_le (Int.floor_mono h) with hf | hf
  · calc rhe a ≤ ⌊a⌋ + 1 := rhe_le_floor_add_one a
      _ ≤ ⌊b⌋ := by omega
      _ ≤ rhe b := floor_le_rhe b
  · unfold rhe
    rw [ratFloor_eq_floor, ratFloor_eq_floor, hf]
    have hab : a - ⌊b⌋ ≤ b - ⌊b⌋ := by linarith
    split_ifs <;> first | omega | linarith

theorem jsRound_intCast (n : ℤ) : jsRound (n : ℚ) = n := by
  unfold jsRound
  rw [ratFloor_eq_floor, Int.floor_int_add]
  have h : ⌊(1/2 : ℚ)⌋ = 0 := by
    norm_num [Int.floor_eq_zero_iff, Set.mem_Ico]
  omega

theorem jsRound_mono {a b : ℚ} (h : a ≤ b) : jsRound a ≤ jsRound b := by
  unfold jsRound
  rw [ratFloor_eq_floor, ratFloor_eq_floor]
  exact Int.floor_mono (by linarith)

theorem pyRound2_mono {a b : ℚ} (h : a ≤ b) : pyRound2 a ≤ pyRound2 b := by
  unfold pyRound2
  have := rhe_mono (mul_le_mul_of_nonneg_right h (by norm_num : (0:ℚ) ≤ 100))
  have hc : (rhe (a * 100) : ℚ) ≤ (rhe (b * 100) : ℚ) := by exact_mod_cast this
  linarith

theorem pyRound1_mono {a b : ℚ} (h : a ≤ b) : pyRound1 a ≤ pyRound1 b := by
  unfold pyRound1
  have := rhe_mono (mul_le_mul_of_nonneg_right h (by norm_num : (0:ℚ) ≤ 10))
  have hc : (rhe (a * 10) : ℚ) ≤ (rhe (b * 10) : ℚ) := by exact_mod_cast this
  linarith

/-- A rational is an exact multiple of `1/100` (a whole number of cents). -/
def IsCent (q : ℚ) : Prop := ∃ n : ℤ, q = n / 100

theorem IsCent.add {a b : ℚ} (ha : IsCent a) (hb : IsCent b) : IsCent (a + b) := by
  obtain ⟨m, rfl⟩ := ha
  obtain ⟨n, rfl⟩ := hb
  exact ⟨m + n, by push_cast; ring⟩

theorem IsCent.sub {a b : ℚ} (ha : IsCent a) (hb : IsCent b) : IsCent (a - b) := by
  obtain ⟨m, rfl⟩ := ha
  obtain ⟨n, rfl⟩ := hb
  exact ⟨m - n, by push_cast; ring⟩

theorem IsCent.intCast (n : ℤ) : IsCent (n : ℚ) :=
  ⟨100 * n, by push_cast; ring⟩

theorem pyRound2_cent {q : ℚ} (h : IsCent q) : pyRound2 q = q := by
  obtain ⟨n, rfl⟩ := h
  have h100 : ((n : ℚ) / 100) * 100 = (n : ℚ) := by field_simp
  rw [pyRound2, h100, rhe_intCast]

theorem jsRound2_cent {q : ℚ} (h : IsCent q) : jsRound2 q = q := by
  obtain ⟨n, rfl⟩ := h
  have h100 : ((n : ℚ) / 100) * 100 = (n : ℚ) := by field_simp
  rw [jsRound2, h100, jsRound_intCast]

theorem IsCent.pyRound2 (q : ℚ) : IsCent (pyRound2 q) :=
  ⟨rhe (q * 100), rfl⟩

/-! ## `scripts/categories.py` -/

/-- Noise patterns hidden from every view (`categories.BLACKLIST`). -/
def BLACKLIST : List Str :=
  [str "xgrow", str "saldo em rotativo", str "saldo em atraso",
   str "juros de dívida", str "juros de divida", str "multa de atraso",
   str "juros do rotativo", str "juros de rotativo", str "iof rotativo",
   str "iof de atraso"]

/-- Master list of expense categories (`categories.MASTER_CATEGORIES_DESPESA`). -/
def MASTER_CATEGORIES_DESPESA : List Str :=
  [str "Transporte", str "Lazer", str "Financiamento e consórcio",
   str "Educação", str "Saneamento básico", str "Outro centro de custo (trabalho)",
   str "Manutenção", str "Impostos e taxas", str "Comunicação",
   str "Despesas esporádicas", str "Esporte", str "Assinaturas",
   str "Desenvolvimento pessoal", str "Eventos", str "Presentes",
   str "Higiene", str "Saúde", str "Academia", str "Pedágio",
   str "Lanche padaria e outros alimentos", str "Manutenção veicular",
   str "Restaurante", str "Combustível", str "Mercado", str "Açougue",
   str "Fruteira", str "Loja e Bazar", str "Vestuário e higiene pessoal",
   str "Manutenção residencial", str "Educação e Desenvolvimento pessoal",
   str "Vestuário", str "Pagamento cartão", str "Investimentos",
   str "Boletos e outros", str "Pagamento de Fornecedores", str "Outros"]

/-- Master list of income categories (`categories.MASTER_CATEGORIES_ENTRADA`). -/
def MASTER_CATEGORIES_ENTRADA : List Str :=
  [str "Salário / Transferência", str "Recebimento de Clientes",
   str "Investimentos (resgate)", str "Outras entradas"]

/-- Deduplication preserving the first occurrence, as `dict.fromkeys` does. -/
def firstDedup : List Str → List Str
  | [] => []
  | k :: ks => k :: (firstDedup ks).filter (· ≠ k)

/-- Complete dropdown list (`categories.MASTER_CATEGORIES`). -/
def MASTER_CATEGORIES : List Str :=
  firstDedup (MASTER_CATEGORIES_ENTRADA ++ MASTER_CATEGORIES_DESPESA)

/-- `categories.is_blacklisted`. -/
def is_blacklisted (text : Str) : Bool :=
  BLACKLIST.any (fun b => containsSeq b (pyLower text))

/-! ## `scripts/consolidate_conta_corrente.py` -/

/-- `consolidate_conta_corrente.is_blacklisted_conta`. -/
def is_blacklisted_conta (desc : Str) : Bool :=
  BLACKLIST.any (fun b => containsSeq b (pyLower desc))

/-- `consolidate_conta_corrente.parse_amount` (identical to
`consolidate_csv.parse_amount` and `build_dashboard.parse_amount`):
strip, replace decimal commas, parse as float, defaulting to `0.0`. -/
def parse_amount (s : Str) : ℚ :=
  (parseFloat? (replaceChar ',' '.' (pyStrip s))).getD 0

/-- Zero-padded decimal rendering of a natural number,
modelling the `f"{v:0Nd}"` format for the non-negative values produced by
`toNatDigits?`. -/
def padNum (width : ℕ) (n : ℕ) : Str :=
  let digits := (Nat.toDigits 10 n)
  List.replicate (width - digits.length) '0' ++ digits

/-- `consolidate_conta_corrente.parse_date`: convert `DD/MM/YYYY` to
`YYYY-MM-DD`, returning the empty string on any failure. -/
def parse_date (dd_mm_yyyy : Str) : Str :=
  let s := pyStrip dd_mm_yyyy
  if s = [] then []
  else
    match splitOnChar '/' s with
    | [p1, p2, p3] =>
      match toNatDigits? p1, toNatDigits? p2, toNatDigits? p3 with
      | some d, some m, some y => padNum 4 y ++ ['-'] ++ padNum 2 m ++ ['-'] ++ padNum 2 d
      | _, _, _ => []
    | _ => []

/-- Regex capture `\s*-\s*(.+?)\s*-\s*` after a matched literal prefix,
modelled as the trimmed text between the first two `-` separators. -/
def captureBetweenDashes (s : Str) : Option Str :=
  match splitOnChar '-' s with
  | _ :: mid :: _ :: _ => if pyStrip mid = [] then none else some (pyStrip mid)
  | _ => none

/-- Regex capture `\s*-\s*(.+)` after a matched literal prefix, modelled as
the trimmed text after the first `-` separator. -/
def captureAfterDash (s : Str) : Option Str :=
  match splitOnChar '-' s with
  | _ :: r :: rest => some (pyStrip (List.intercalate ['-'] (r :: rest)))
  | _ => none

/-- Case-insensitive literal prefix match, modelling `re.match` with a
literal pattern under `re.IGNORECASE`. -/
def startsWithCI (p s : Str) : Bool :=
  (pyLower p).isPrefixOf (pyLower s)

/-- Case-insensitive substring search, modelling `re.search` with a literal
pattern under `re.IGNORECASE`. -/
def searchCI (p s : Str) : Bool :=
  containsSeq (pyLower p) (pyLower s)

/-- `consolidate_conta_corrente.extract_entity`. -/
def extract_entity (desc : Str) : Str :=
  let d := pyStrip desc
  if d = [] then str "Desconhecido"
  else
    let r1 := if startsWithCI (str "Transferência Recebida") d then captureBetweenDashes d else none
    let r2 := if startsWithCI (str "Transferência enviada pelo Pix") d ||
                 startsWithCI (str "Transferência recebida pelo Pix") d then
                captureBetweenDashes d else none
    let r3 := if startsWithCI (str "Pagamento de boleto efetuado") d then captureAfterDash d else none
    let r4 := if searchCI (str "Pagamento de fatura") d then some (str "Pagamento de fatura") else none
    let r5 := if searchCI (str "Resgate RDB") d then some (str "Resgate RDB") else none
    let r6 := if searchCI (str "Aplicação RDB") d then some (str "Aplicação RDB") else none
    let r7 := if startsWithCI (str "Compra no débito") d then captureAfterDash d else none
    (((((((r1.orElse fun _ => r2).orElse fun _ => r3).orElse fun _ => r4).orElse
        fun _ => r5).orElse fun _ => r6).orElse fun _ => r7).getD (d.take 80))

/-- `consolidate_conta_corrente.categorize_conta`: assign one master-list
category from description, amount sign and extracted entity. -/
def categorize_conta (desc : Str) (amount : ℚ) (entity : Str) : Str :=
  let d := pyLower desc
  let ent := pyLower entity
  if 0 < amount then
    if containsSeq (str "transferência recebida") d ||
       containsSeq (str "transferência recebida pelo pix") d then
      if containsSeq (str "rodrigo ribas") d || containsSeq (str "nu pagamentos") d then
        str "Salário / Transferência"
      else str "Recebimento de Clientes"
    else if containsSeq (str "resgate rdb") d then str "Investimentos (resgate)"
    else str "Outras entradas"
  else if containsSeq (str "pagamento de fatura") d then str "Pagamento cartão"
  else if containsSeq (str "receita federal") d || containsSeq (str "ipva") d ||
          containsSeq (str "sefaz") d || containsSeq (str "receita federal") ent then
    str "Impostos e taxas"
  else if containsSeq (str "telefonica") d || containsSeq (str "tel3") d ||
          containsSeq (str "tel3 telecom") ent then
    str "Comunicação"
  else if containsSeq (str "cia estadual de distribui") d ||
          containsSeq (str "cia riograndense de saneamento") d then
    str "Saneamento básico"
  else if containsSeq (str "aplicação rdb") d || containsSeq (str "aplicacao rdb") d then
    str "Investimentos"
  else if containsSeq (str "pagamento de boleto") d then
    if containsSeq (str "consorcio") d || containsSeq (str "consórcio") d ||
       containsSeq (str "consorcio") ent then
      str "Financiamento e consórcio"
    else str "Boletos e outros"
  else if containsSeq (str "compra no débito") d || containsSeq (str "compra no debito") d then
    if containsSeq (str "posto") d || containsSeq (str "gasolina") d then str "Combustível"
    else if containsSeq (str "supermerc") d || containsSeq (str "mercado") d ||
            containsSeq (str "hortifruti") d then
      str "Mercado"
    else if containsSeq (str "restaurante") d || containsSeq (str "lanch") d ||
            containsSeq (str "padaria") d then
      if containsSeq (str "restaurante") d || containsSeq (str "lanch") d then
        str "Restaurante"
      else str "Lanche padaria e outros alimentos"
    else str "Outros"
  else if containsSeq (str "transferência enviada pelo pix") d then
    if containsSeq (str "•••") desc then str "Presentes"
    else if containsSeq (str "mercadopago") d || containsSeq (str "pagseguro") d then str "Outros"
    else if containsSeq (str "consorcio") d || containsSeq (str "consórcio") d then
      str "Financiamento e consórcio"
    else if containsSeq (str "nubank") d then str "Outros"
    else if containsSeq (str "edison") d || containsSeq (str "fornecedor") ent ||
            containsSeq (str "kirsten") d then
      str "Pagamento de Fornecedores"
    else str "Outros"
  else str "Outros"

/-! ## `scripts/build_dashboard.py` — classifier and constants -/

/-- Monthly budget ceiling (`build_dashboard.BUDGET_MONTHLY`). -/
def BUDGET_MONTHLY : ℚ := 3125

/-- `build_dashboard.categorize`: keyword classifier for card titles. -/
def categorize (title : Str) : Str :=
  let t := pyLower title
  if [str "supermerc", str "mercado", str "hortifruti", str "mercearia",
      str "atacad", str "fruteira", str "carrefour"].any (fun k => containsSeq k t) then
    str "Mercado"
  else if [str "posto", str "gasbom", str "gasolina",
           str "abastece"].any (fun k => containsSeq k t) then
    str "Combustível"
  else if [str "uber", str "via sul", str "concessionaria",
           str "concessionária"].any (fun k => containsSeq k t) then
    str "Transporte"
  else if [str "pedágio", str "estacionamento"].any (fun k => containsSeq k t) then
    str "Pedágio"
  else if [str "academia", str "prime fit"].any (fun k => containsSeq k t) then
    str "Academia"
  else if [str "farmacia", str "farmácia", str "panvel", str "sao joao",
           str "são joão"].any (fun k => containsSeq k t) then
    str "Saúde"
  else if [str "ricky", str "xis", str "lanches", str "restaurante", str "pizzaria",
           str "buffon", str "padaria", str "lanchonete", str "hamburguer",
           str "minhocaburger", str "rancho", str "a lenha", str "cia do sabor",
           str "cremolatto", str "delivery"].any (fun k => containsSeq k t) then
    if [str "restaurante", str "pizzaria", str "buffon", str "hamburguer",
        str "rancho", str "cia do sabor"].any (fun x => containsSeq x t) then
      str "Restaurante"
    else str "Lanche padaria e outros alimentos"
  else if [str "google", str "youtube", str "netflix", str "assinatura",
           str "juliocesar", str "gemeascel", str "conta vivo",
           str "contavivo"].any (fun k => containsSeq k t) then
    str "Assinaturas"
  else if [str "barbeiro", str "xbeleza", str "beleza",
           str "barbearia"].any (fun k => containsSeq k t) then
    str "Vestuário e higiene pessoal"
  else if [str "rede farroupilha", str "estacionamentos"].any (fun k => containsSeq k t) then
    str "Pedágio"
  else if [str "bazar", str "havan", str "lojas americanas", str "leroy",
           str "amazon"].any (fun k => containsSeq k t) then
    str "Loja e Bazar"
  else str "Outros"

/-! ## String ordering (Python string comparison by code point) -/

/-- Strict lexicographic comparison of strings by code point, modelling the
Python `<` operator on strings (used inside tuple sort keys). -/
def strLtB : Str → Str → Bool
  | [], [] => false
  | [], _ :: _ => true
  | _ :: _, [] => false
  | c :: cs, d :: ds =>
    if c.toNat < d.toNat then true
    else if d.toNat < c.toNat then false
    else strLtB cs ds

theorem charToNat_inj {c d : Char} (h : c.toNat = d.toNat) : c = d := by
  have := congrArg Char.ofNat h
  rwa [Char.ofNat_toNat, Char.ofNat_toNat] at this

theorem strLtB_trans : ∀ {a b c : Str}, strLtB a b → strLtB b c → strLtB a c
  | [], [], _, hab, _ => by simp [strLtB] at hab
  | [], _ :: _, [], _, hbc => by simp [strLtB] at hbc
  | [], _ :: _, _ :: _, _, _ => by simp [strLtB]
  | _ :: _, [], _, hab, _ => by simp [strLtB] at hab
  | _ :: _, _ :: _, [], _, hbc => by simp [strLtB] at hbc
  | x :: xs, y :: ys, z :: zs, hab, hbc => by
    simp only [strLtB] at *
    split_ifs at * with h1 h2 h3 h4 h5 h6 <;> try omega
    all_goals simp_all
    · exact strLtB_trans hab hbc

theorem strLtB_trichotomy : ∀ (a b : Str), strLtB a b = true ∨ a = b ∨ strLtB b a = true
  | [], [] => Or.inr (Or.inl rfl)
  | [], _ :: _ => Or.inl (by simp [strLtB])
  | _ :: _, [] => Or.inr (Or.inr (by simp [strLtB]))
  | x :: xs, y :: ys => by
    rcases Nat.lt_trichotomy x.toNat y.toNat with h | h | h
    · exact Or.inl (by simp [strLtB, h])
    · have hxy : x = y := charToNat_inj h
      subst hxy
      rcases strLtB_trichotomy xs ys with h2 | h2 | h2
      · exact Or.inl (by simp [strLtB, h2])
      · exact Or.inr (Or.inl (by rw [h2]))
      · exact Or.inr (Or.inr (by simp [strLtB, h2]))
    · exact Or.inr (Or.inr (by simp [strLtB, h, Nat.lt_asymm h]))

/-! ## Record types and loaders -/

/-- A raw CSV row as read by `csv.DictReader` in `consolidate_csv.py` and
`build_dashboard.py` (`None` models a missing column). -/
structure CsvRow where
  date : Option Str
  title : Option Str
  amount : Option Str
deriving DecidableEq

/-- A normalized credit-card statement row (`consolidate_csv.load_all_csvs`). -/
structure CsvRec where
  date : Str
  title : Str
  amount : ℚ
deriving DecidableEq

/-- Row handling inside the reader loop of `consolidate_csv.load_all_csvs`:
only rows whose stripped `date` is empty are skipped. -/
def csvProcessRow (row : CsvRow) : Option CsvRec :=
  let date_s := pyStrip (row.date.getD [])
  let title := pyStrip (row.title.getD [])
  let amount := parse_amount (row.amount.getD (str "0"))
  if date_s = [] then none else some ⟨date_s, title, amount⟩

/-- `consolidate_csv.load_all_csvs` on the concatenated row stream of all
`Nubank_*.csv` files. -/
def load_all_csvs (rows : List CsvRow) : List CsvRec :=
  rows.filterMap csvProcessRow

/-- A categorized credit-card expense record (`build_dashboard.load_2025_expenses`). -/
structure Rec where
  date : Str
  title : Str
  amount : ℚ
  category : Str
deriving DecidableEq

/-- Row handling inside `build_dashboard.load_2025_expenses`: keep 2025 rows
that are not blacklisted, rounding the parsed amount to two decimals and
categorizing by title. -/
def dashProcessRow (row : CsvRow) : Option Rec :=
  let date_s := pyStrip (row.date.getD [])
  if ¬ (str "2025-").isPrefixOf date_s then none
  else
    let title := pyStrip (row.title.getD [])
    if is_blacklisted title then none
    else
      let amount := parse_amount (row.amount.getD (str "0"))
      some ⟨date_s, title, pyRound2 amount, categorize title⟩

/-- Sort key order of `load_2025_expenses`: ascending by `(date, title, amount)`. -/
def dashLe (a b : Rec) : Prop :=
  strLtB a.date b.date ∨
    (a.date = b.date ∧ (strLtB a.title b.title ∨ (a.title = b.title ∧ a.amount ≤ b.amount)))

instance : DecidableRel dashLe := fun a b => by unfold dashLe; infer_instance

instance : IsTotal Rec dashLe := by
  constructor
  intro a b
  rcases strLtB_trichotomy a.date b.date with h | h | h
  · exact Or.inl (Or.inl h)
  · rcases strLtB_trichotomy a.title b.title with h2 | h2 | h2
    · exact Or.inl (Or.inr ⟨h, Or.inl h2⟩)
    · rcases le_total a.amount b.amount with h3 | h3
      · exact Or.inl (Or.inr ⟨h, Or.inr ⟨h2, h3⟩⟩)
      · exact Or.inr (Or.inr ⟨h.symm, Or.inr ⟨h2.symm, h3⟩⟩)
    · exact Or.inr (Or.inr ⟨h.symm, Or.inl h2⟩)
  · exact Or.inr (Or.inl h)

instance : IsTrans Rec dashLe := by
  constructor
  intro a b c hab hbc
  rcases hab with h1 | ⟨hd1, h1⟩
  · rcases hbc with h2 | ⟨hd2, h2⟩
    · exact Or.inl (strLtB_trans h1 h2)
    · exact Or.inl (hd2 ▸ h1)
  · rcases hbc with h2 | ⟨hd2, h2⟩
    · exact Or.inl (hd1 ▸ h2)
    · refine Or.inr ⟨hd1.trans hd2, ?_⟩
      rcases h1 with h1 | ⟨ht1, h1⟩
      · rcases h2 with h2 | ⟨ht2, h2⟩
        · exact Or.inl (strLtB_trans h1 h2)
        · exact Or.inl (ht2 ▸ h1)
      · rcases h2 with h2 | ⟨ht2, h2⟩
        · exact Or.inl (ht1 ▸ h2)
        · exact Or.inr ⟨ht1.trans ht2, le_trans h1 h2⟩

/-- `build_dashboard.load_2025_expenses` on the row stream of
`consolidated_12m_expenses.csv`. -/
def load_2025_expenses (rows : List CsvRow) : List Rec :=
  List.insertionSort dashLe (rows.filterMap dashProcessRow)

/-- A raw checking-account CSV row (`Data`, `Valor`, `Descrição`). -/
structure ContaRow where
  data : Option Str
  valor : Option Str
  descricao : Option Str
deriving DecidableEq

/-- A normalized checking-account transaction
(`consolidate_conta_corrente.load_all_conta_corrente`). -/
structure ContaRec where
  date : Str
  amount : ℚ
  entity : Str
  description : Str
  category : Str
  type : Str
deriving DecidableEq

/-- Row handling inside the reader loop of
`consolidate_conta_corrente.load_all_conta_corrente`: reject rows whose
parsed date does not start with `2025-`, drop blacklisted descriptions,
extract entity and category, round the amount to two decimals. -/
def contaProcessRow (row : ContaRow) : Option ContaRec :=
  let data_str := pyStrip (row.data.getD [])
  let date_iso := parse_date data_str
  if ¬ (str "2025-").isPrefixOf date_iso then none
  else
    let valor := parse_amount (row.valor.getD (str "0"))
    let desc := pyStrip (row.descricao.getD [])
    if is_blacklisted_conta desc then none
    else
      let entity := extract_entity desc
      let category := categorize_conta desc valor entity
      let tipo := if 0 ≤ valor then str "entrada" else str "saida"
      some ⟨date_iso, pyRound2 valor, entity, desc, category, tipo⟩

/-- Sort key order of `load_all_conta_corrente`: ascending by
`(date, amount, description)`. -/
def contaLe (a b : ContaRec) : Prop :=
  strLtB a.date b.date ∨
    (a.date = b.date ∧ (a.amount < b.amount ∨
      (a.amount = b.amount ∧
        (strLtB a.description b.description ∨ a.description = b.description))))

instance : DecidableRel contaLe := fun a b => by unfold contaLe; infer_instance

instance : IsTotal ContaRec contaLe := by
  constructor
  intro a b
  rcases strLtB_trichotomy a.date b.date with h | h | h
  · exact Or.inl (Or.inl h)
  · rcases lt_trichotomy a.amount b.amount with h2 | h2 | h2
    · exact Or.inl (Or.inr ⟨h, Or.inl h2⟩)
    · rcases strLtB_trichotomy a.description b.description with h3 | h3 | h3
      · exact Or.inl (Or.inr ⟨h, Or.inr ⟨h2, Or.inl h3⟩⟩)
      · exact Or.inl (Or.inr ⟨h, Or.inr ⟨h2, Or.inr h3⟩⟩)
      · exact Or.inr (Or.inr ⟨h.symm, Or.inr ⟨h2.symm, Or.inl h3⟩⟩)
    · exact Or.inr (Or.inr ⟨h.symm, Or.inl h2⟩)
  · exact Or.inr (Or.inl h)

instance : IsTrans ContaRec contaLe := by
  constructor
  intro a b c hab hbc
  rcases hab with h1 | ⟨hd1, h1⟩
  · rcases hbc with h2 | ⟨hd2, h2⟩
    · exact Or.inl (strLtB_trans h1 h2)
    · exact Or.inl (hd2 ▸ h1)
  · rcases hbc with h2 | ⟨hd2, h2⟩
    · exact Or.inl (hd1 ▸ h2)
    · refine Or.inr ⟨hd1.trans hd2, ?_⟩
      rcases h1 with h1 | ⟨ha1, h1⟩
      · rcases h2 with h2 | ⟨ha2, h2⟩
        · exact Or.inl (lt_trans h1 h2)
        · exact Or.inl (ha2 ▸ h1)
      · rcases h2 with h2 | ⟨ha2, h2⟩
        · exact Or.inl (ha1 ▸ h2)
        · refine Or.inr ⟨ha1.trans ha2, ?_⟩
          rcases h1 with h1 | h1
          · rcases h2 with h2 | h2
            · exact Or.inl (strLtB_trans h1 h2)
            · exact Or.inl (h2 ▸ h1)
          · rcases h2 with h2 | h2
            · exact Or.inl (h1 ▸ h2)
            · exact Or.inr (h1.trans h2)

/-- `consolidate_conta_corrente.load_all_conta_corrente` on the concatenated
row stream of all `NU_26372425_*.csv` files. -/
def load_all_conta_corrente (rows : List ContaRow) : List ContaRec :=
  List.insertionSort contaLe (rows.filterMap contaProcessRow)

/-- The ordering the specification claims for the checking-account loader:
ascending by `(date, title, amount)`, reading the extracted entity as the
record title. -/
def contaClaimLe (a b : ContaRec) : Prop :=
  strLtB a.date b.date ∨
    (a.date = b.date ∧ (strLtB a.entity b.entity ∨ (a.entity = b.entity ∧ a.amount ≤ b.amount)))

instance : DecidableRel contaClaimLe := fun a b => by unfold contaClaimLe; infer_instance

/-! ## Aggregate rows as ordered field lists

Python dict literals and JavaScript object literals are modelled as ordered
association lists of fields, so that two aggregate rows are equal exactly
when they agree field for field, including field presence and order. -/

/-- A field value of an aggregate row. -/
inductive JVal where
  | str (s : Str)
  | num (q : ℚ)
deriving DecidableEq

/-- An aggregate row: an ordered list of named fields. -/
abbrev JObj := List (Str × JVal)

/-- Field lookup (total, defaulting to `0`; the modelled programs only read
fields that are present). -/
def jGet (o : JObj) (k : Str) : JVal :=
  match o.find? (fun p => p.1 == k) with
  | some p => p.2
  | none => JVal.num 0

/-- Numeric value of a field value. -/
def jNum : JVal → ℚ
  | .num q => q
  | .str _ => 0

/-- The `total` field of an aggregate row. -/
def jTotal (o : JObj) : ℚ := jNum (jGet o (str "total"))

/-- Insert-or-add into an insertion-ordered association list: the model of
`defaultdict(float)` accumulation and of `by[k] = (by[k] || 0) + v` on a
JavaScript object (non-numeric keys enumerate in insertion order). -/
def upsert (k : Str) (v : ℚ) : List (Str × ℚ) → List (Str × ℚ)
  | [] => [(k, v)]
  | p :: rest => if p.1 = k then (p.1, p.2 + v) :: rest else p :: upsert k v rest

/-- Accumulate all records into the association list. -/
def groupGo {α : Type} (key : α → Str) (val : α → ℚ) (acc : List (Str × ℚ)) :
    List α → List (Str × ℚ)
  | [] => acc
  | r :: rs => groupGo key val (upsert (key r) (val r) acc) rs

/-- Group records by a key and sum a value, keys in first-occurrence order. -/
def groupSum {α : Type} (key : α → Str) (val : α → ℚ) (rs : List α) : List (Str × ℚ) :=
  groupGo key val [] rs

/-- Key order on grouped pairs (`sorted(items)` on unique keys, and
`Object.keys(by).sort()`, which agree on the program's ASCII month keys). -/
def keyLe (p q : Str × ℚ) : Prop := strLtB p.1 q.1 ∨ p.1 = q.1

instance : DecidableRel keyLe := fun p q => by unfold keyLe; infer_instance

instance : IsTotal (Str × ℚ) keyLe := by
  constructor
  intro a b
  rcases strLtB_trichotomy a.1 b.1 with h | h | h
  · exact Or.inl (Or.inl h)
  · exact Or.inl (Or.inr h)
  · exact Or.inr (Or.inl h)

instance : IsTrans (Str × ℚ) keyLe := by
  constructor
  intro a b c hab hbc
  rcases hab with h1 | h1
  · rcases hbc with h2 | h2
    · exact Or.inl (strLtB_trans h1 h2)
    · exact Or.inl (h2 ▸ h1)
  · rcases hbc with h2 | h2
    · exact Or.inl (h1 ▸ h2)
    · exact Or.inr (h1.trans h2)

/-- Ascending sort of grouped pairs by key (stable). -/
def sortPairsByKey (l : List (Str × ℚ)) : List (Str × ℚ) :=
  List.insertionSort keyLe l

/-- Descending order by unrounded grouped value (`sorted(..., key=lambda x: -x[1])`). -/
def pairDesc (a b : Str × ℚ) : Prop := b.2 ≤ a.2

instance : DecidableRel pairDesc := fun a b => by unfold pairDesc; infer_instance

instance : IsTotal (Str × ℚ) pairDesc := ⟨fun a b => (le_total b.2 a.2).imp id id⟩

instance : IsTrans (Str × ℚ) pairDesc := ⟨fun _ _ _ hab hbc => le_trans hbc hab⟩

/-- Stable descending sort of grouped pairs by value. -/
def sortPairsDesc (l : List (Str × ℚ)) : List (Str × ℚ) :=
  List.insertionSort pairDesc l

/-- Descending order by the `total` field (`out.sort(key=lambda x: -x["total"])`
and the stable ES2019 `arr.sort((a, b) => b.total - a.total)`). -/
def jTotalDesc (a b : JObj) : Prop := jTotal b ≤ jTotal a

instance : DecidableRel jTotalDesc := fun a b => by unfold jTotalDesc; infer_instance

instance : IsTotal JObj jTotalDesc := ⟨fun a b => (le_total (jTotal b) (jTotal a)).imp id id⟩

instance : IsTrans JObj jTotalDesc := ⟨fun _ _ _ hab hbc => le_trans hbc hab⟩

/-- Stable descending sort of aggregate rows by the `total` field. -/
def sortJByTotalDesc (l : List JObj) : List JObj :=
  List.insertionSort jTotalDesc l

/-! ## `scripts/build_dashboard.py` — server-side (Python) aggregation -/

/-- `build_dashboard.aggregate_by_month`. -/
def aggregate_by_month (expenses : List Rec) : List JObj :=
  (sortPairsByKey (groupSum (fun r => r.date.take 7) (fun r => r.amount) expenses)).map
    (fun p => [(str "month", JVal.str p.1), (str "total", JVal.num (pyRound2 p.2))])

/-- `build_dashboard.aggregate_by_category`. -/
def aggregate_by_category (expenses : List Rec) : List JObj :=
  sortJByTotalDesc ((groupSum (fun r => r.category) (fun r => r.amount) expenses).map
    (fun p => [(str "category", JVal.str p.1), (str "total", JVal.num (pyRound2 p.2))]))

/-- `build_dashboard.aggregate_by_title`. -/
def aggregate_by_title (expenses : List Rec) : List JObj :=
  sortJByTotalDesc ((groupSum (fun r => r.title) (fun r => r.amount) expenses).map
    (fun p => [(str "title", JVal.str p.1), (str "total", JVal.num (pyRound2 p.2)),
               (str "count", JVal.num (expenses.countP (fun e => e.title == p.1) : ℚ))]))

/-- The loop body of `build_dashboard.build_abc`, carrying the running sum. -/
def abcLoop (total : ℚ) (cum : ℚ) : List JObj → List JObj
  | [] => []
  | x :: xs =>
    let cum2 := cum + jTotal x
    let pct := cum2 / total * 100
    let cls := if pct ≤ 80 then str "A" else if pct ≤ 95 then str "B" else str "C"
    (x ++ [(str "cum_pct", JVal.num (pyRound1 pct)), (str "abc", JVal.str cls)]) ::
      abcLoop total cum2 xs

/-- `build_dashboard.build_abc`: add ABC class and cumulative percentage,
returning the input unchanged when the grand total is not positive. -/
def build_abc (by_title : List JObj) (total : ℚ) : List JObj :=
  if total ≤ 0 then by_title else abcLoop total 0 by_title

/-- `total_2025` as computed in `build_dashboard.main`:
`round(sum(e["amount"] for e in expenses), 2)`. -/
def total_2025 (expenses : List Rec) : ℚ :=
  pyRound2 ((expenses.map Rec.amount).sum)

/-- `by_title_abc` as computed in `build_dashboard.main`. -/
def by_title_abc (expenses : List Rec) : List JObj :=
  build_abc (aggregate_by_title expenses) (total_2025 expenses)

/-- `build_dashboard.over_budget_months`. -/
def over_budget_months (by_month : List JObj) : List JObj :=
  by_month.filterMap (fun m =>
    if BUDGET_MONTHLY < jTotal m then
      some [(str "month", jGet m (str "month")),
            (str "total", jGet m (str "total")),
            (str "over_amount", JVal.num (pyRound2 (jTotal m - BUDGET_MONTHLY)))]
    else none)

/-- Replace the value stored at a key (`by_cat_sum["Pagamento cartão"] = ...`). -/
def setVal (k : Str) (v : ℚ) : List (Str × ℚ) → List (Str × ℚ)
  | [] => []
  | p :: rest => if p.1 = k then (p.1, v) :: rest else p :: setVal k v rest

/-- Key membership (`"Pagamento cartão" in by_cat_sum`). -/
def hasKey (l : List (Str × ℚ)) (k : Str) : Bool :=
  l.any (fun p => p.1 == k)

/-- The category key used by `build_conta_payload`:
`(t.get("category") or "Outros").strip()`. -/
def contaCatKey (t : ContaRec) : Str :=
  pyStrip (if t.category = [] then str "Outros" else t.category)

/-- The `by_category` table of `build_dashboard.build_conta_payload`:
absolute outflow amounts grouped by category, with the `Pagamento cartão`
entry overwritten by the card total when that total is nonzero and the
category is present, sorted descending by the unrounded sums. -/
def conta_by_category (transactions : List ContaRec) (total_cartao : ℚ) : List JObj :=
  let saidas := transactions.filter (fun t => t.amount < 0)
  let by_cat_sum := groupSum contaCatKey (fun t => |t.amount|) saidas
  let by_cat_sum2 :=
    if total_cartao ≠ 0 ∧ hasKey by_cat_sum (str "Pagamento cartão") then
      setVal (str "Pagamento cartão") (pyRound2 total_cartao) by_cat_sum
    else by_cat_sum
  (sortPairsDesc by_cat_sum2).map
    (fun p => [(str "category", JVal.str p.1), (str "total", JVal.num (pyRound2 p.2))])

/-! ## Embedded client-side JavaScript aggregation -/

/-- JavaScript `aggregateByMonth` from the generated page. -/
def aggregateByMonth (expenses : List Rec) : List JObj :=
  (sortPairsByKey (groupSum (fun r => r.date.take 7) (fun r => r.amount) expenses)).map
    (fun p => [(str "month", JVal.str p.1), (str "total", JVal.num (jsRound2 p.2))])

/-- JavaScript `aggregateByCategory` from the generated page. -/
def aggregateByCategory (expenses : List Rec) : List JObj :=
  sortJByTotalDesc ((groupSum (fun r => r.category) (fun r => r.amount) expenses).map
    (fun p => [(str "category", JVal.str p.1), (str "total", JVal.num (jsRound2 p.2))]))

/-- The mapping loop of JavaScript `aggregateByTitle`, carrying the running sum. -/
def jsAbcGo (total : ℚ) (cum : ℚ) : List (Str × ℚ) → List JObj
  | [] => []
  | p :: rest =>
    let cum2 := cum + p.2
    let pct := if 0 < total then cum2 / total * 100 else 0
    let cls := if pct ≤ 80 then str "A" else if pct ≤ 95 then str "B" else str "C"
    [(str "title", JVal.str p.1), (str "total", JVal.num p.2),
     (str "cum_pct", JVal.num (jsRound1 pct)), (str "abc", JVal.str cls)] ::
      jsAbcGo total cum2 rest

/-- JavaScript `aggregateByTitle` from the generated page: per-title rounded
totals sorted descending, then ABC classification against the sum of the
rounded totals, always emitting `cum_pct` and `abc`. -/
def aggregateByTitle (expenses : List Rec) : List JObj :=
  let arr := (groupSum (fun r => r.title) (fun r => r.amount) expenses).map
    (fun p => (p.1, jsRound2 p.2))
  let arr2 := sortPairsDesc arr
  let total := (arr2.map Prod.snd).sum
  jsAbcGo total 0 arr2

/-! ## Lemmas about grouped accumulation -/

/-- The value stored for a key (0 when absent). -/
def getQ (l : List (Str × ℚ)) (k : Str) : ℚ :=
  match l.find? (fun p => p.1 == k) with
  | some p => p.2
  | none => 0

theorem getQ_upsert_self (l : List (Str × ℚ)) (k : Str) (v : ℚ) :
    getQ (upsert k v l) k = getQ l k + v := by
  induction l with
  | nil => simp [upsert, getQ, List.find?]
  | cons p rest ih =>
    by_cases h : p.1 = k
    · simp [upsert, h, getQ, List.find?]
    · simp only [upsert, if_neg h, getQ, List.find?]
      have hb : (p.1 == k) = false := by simpa using h
      simp only [hb]
      exact ih

theorem getQ_upsert_ne (l : List (Str × ℚ)) {k k' : Str} (h : k' ≠ k) (v : ℚ) :
    getQ (upsert k v l) k' = getQ l k' := by
  induction l with
  | nil =>
    have hb : (k == k') = false := by simpa using (Ne.symm h)
    simp [upsert, getQ, List.find?, hb]
  | cons p rest ih =>
    by_cases hp : p.1 = k
    · subst hp
      have hb : (p.1 == k') = false := by simpa using (Ne.symm h)
      simp [upsert, getQ, List.find?, hb]
    · simp only [upsert, if_neg hp, getQ, List.find?]
      by_cases hpk : p.1 = k'
      · simp [hpk]
      · have hb : (p.1 == k') = false := by simpa using hpk
        simp only [hb]
        exact ih

theorem hasKey_upsert_self (l : List (Str × ℚ)) (k : Str) (v : ℚ) :
    hasKey (upsert k v l) k = true := by
  induction l with
  | nil => simp [upsert, hasKey]
  | cons p rest ih =>
    by_cases h : p.1 = k
    · simp [upsert, h, hasKey]
    · simp only [upsert, if_neg h, hasKey, List.any_cons]
      simp only [hasKey] at ih
      simp [ih]

theorem hasKey_upsert_of (l : List (Str × ℚ)) (k k' : Str) (v : ℚ)
    (h : hasKey l k' = true) : hasKey (upsert k v l) k' = true := by
  induction l with
  | nil => simp [hasKey] at h
  | cons p rest ih =>
    by_cases hp : p.1 = k
    · subst hp
      simp only [hasKey, List.any_cons] at h ⊢
      simpa [upsert] using h
    · simp only [upsert, if_neg hp, hasKey, List.any_cons] at h ⊢
      rcases Bool.or_eq_true_iff.mp h with h1 | h1
      · simp [h1]
      · simp only [hasKey] at ih
        simp [ih h1]

theorem mem_of_hasKey {l : List (Str × ℚ)} {k : Str} (h : hasKey l k = true) :
    (k, getQ l k) ∈ l := by
  induction l with
  | nil => simp [hasKey] at h
  | cons p rest ih =>
    by_cases hp : p.1 = k
    · subst hp
      simp [getQ, List.find?]
    · have hb : (p.1 == k) = false := by simpa using hp
      simp only [hasKey, List.any_cons, hb, Bool.false_or] at h
      simp only [getQ, List.find?, hb]
      right
      exact ih h

theorem filter_cons_true {α : Type} (p : α → Bool) (a : α) (l : List α) (h : p a = true) :
    List.filter p (a :: l) = a :: List.filter p l := by
  simp [List.filter, h]

theorem filter_cons_false {α : Type} (p : α → Bool) (a : α) (l : List α) (h : p a = false) :
    List.filter p (a :: l) = List.filter p l := by
  simp [List.filter, h]

theorem groupGo_getQ {α : Type} (key : α → Str) (val : α → ℚ) (rs : List α)
    (acc : List (Str × ℚ)) (k : Str) :
    getQ (groupGo key val acc rs) k =
      getQ acc k + ((rs.filter (fun r => key r == k)).map val).sum := by
  induction rs generalizing acc with
  | nil => simp [groupGo]
  | cons r rest ih =>
    by_cases h : key r = k
    · subst h
      rw [filter_cons_true _ _ _ (by simp)]
      simp only [groupGo, List.map_cons, List.sum_cons]
      rw [ih, getQ_upsert_self]
      ring
    · have hb : (key r == k) = false := by simpa using h
      rw [filter_cons_false (fun x => key x == k) r rest hb]
      simp only [groupGo]
      rw [ih, getQ_upsert_ne _ (Ne.symm h)]

theorem groupSum_getQ {α : Type} (key : α → Str) (val : α → ℚ) (rs : List α) (k : Str) :
    getQ (groupSum key val rs) k = ((rs.filter (fun r => key r == k)).map val).sum := by
  have := groupGo_getQ key val rs [] k
  simpa [groupSum, getQ, List.find?] using this

theorem hasKey_groupGo_of_acc {α : Type} (key : α → Str) (val : α → ℚ) (rs : List α)
    {acc : List (Str × ℚ)} {k : Str} (h : hasKey acc k = true) :
    hasKey (groupGo key val acc rs) k = true := by
  induction rs generalizing acc with
  | nil => simpa [groupGo] using h
  | cons r rest ih => exact ih (hasKey_upsert_of _ _ _ _ h)

theorem hasKey_groupGo_of_mem {α : Type} (key : α → Str) (val : α → ℚ) :
    ∀ (rs : List α) (r : α), r ∈ rs → ∀ acc : List (Str × ℚ),
      hasKey (groupGo key val acc rs) (key r) = true
  | [], r, hr, _ => by simp at hr
  | x :: rest, r, hr, acc => by
    rcases List.mem_cons.mp hr with h | h
    · subst h
      simp only [groupGo]
      exact hasKey_groupGo_of_acc _ _ _ (hasKey_upsert_self _ _ _)
    · simp only [groupGo]
      exact hasKey_groupGo_of_mem key val rest r h _

theorem hasKey_groupSum {α : Type} (key : α → Str) (val : α → ℚ) {rs : List α} {r : α}
    (hr : r ∈ rs) : hasKey (groupSum key val rs) (key r) = true :=
  hasKey_groupGo_of_mem key val rs r hr []

theorem upsert_cent {v : ℚ} (k : Str) (hv : IsCent v) :
    ∀ (l : List (Str × ℚ)), (∀ p ∈ l, IsCent p.2) → ∀ p ∈ upsert k v l, IsCent p.2
  | [], _, p, hp => by
    simp [upsert] at hp
    subst hp
    exact hv
  | q :: rest, hl, p, hp => by
    by_cases h : q.1 = k
    · simp only [upsert, if_pos h] at hp
      rcases List.mem_cons.mp hp with h1 | h1
      · rw [h1]
        exact (hl q (List.mem_cons_self _ _)).add hv
      · exact hl p (List.mem_cons_of_mem _ h1)
    · simp only [upsert, if_neg h] at hp
      rcases List.mem_cons.mp hp with h1 | h1
      · rw [h1]
        exact hl q (List.mem_cons_self _ _)
      · exact upsert_cent k hv rest (fun x hx => hl x (List.mem_cons_of_mem _ hx)) p h1

theorem groupGo_cent {α : Type} (key : α → Str) (val : α → ℚ) :
    ∀ (rs : List α) (acc : List (Str × ℚ)), (∀ p ∈ acc, IsCent p.2) →
      (∀ r ∈ rs, IsCent (val r)) → ∀ p ∈ groupGo key val acc rs, IsCent p.2
  | [], acc, hacc, _, p, hp => by
    simp only [groupGo] at hp
    exact hacc p hp
  | r :: rest, acc, hacc, hval, p, hp => by
    simp only [groupGo] at hp
    exact groupGo_cent key val rest _
      (upsert_cent _ (hval r (List.mem_cons_self _ _)) acc hacc)
      (fun x hx => hval x (List.mem_cons_of_mem _ hx)) p hp

theorem groupSum_cent {α : Type} (key : α → Str) (val : α → ℚ) {rs : List α}
    (hval : ∀ r ∈ rs, IsCent (val r)) :
    ∀ p ∈ groupSum key val rs, IsCent p.2 :=
  groupGo_cent key val rs [] (by simp) hval

/-! ## Closed-form description of the ABC loop -/

/-- Inclusive running sums starting from `c`. -/
def prefSums (c : ℚ) : List ℚ → List ℚ
  | [] => []
  | q :: qs => (c + q) :: prefSums (c + q) qs

/-- ABC bucket computed by `build_abc` from the unrounded cumulative percentage. -/
def clsOf (pct : ℚ) : Str :=
  if pct ≤ 80 then str "A" else if pct ≤ 95 then str "B" else str "C"

/-- A bare `{title, total}` aggregate row. -/
def rowTitle (p : Str × ℚ) : JObj :=
  [(str "title", JVal.str p.1), (str "total", JVal.num p.2)]

/-- A bare `{month, total}` aggregate row. -/
def monthRow (p : Str × ℚ) : JObj :=
  [(str "month", JVal.str p.1), (str "total", JVal.num p.2)]

/-- The `cum_pct` column of a list of aggregate rows. -/
def cumPcts (out : List JObj) : List ℚ :=
  out.map (fun o => jNum (jGet o (str "cum_pct")))

theorem jTotal_rowTitle (p : Str × ℚ) : jTotal (rowTitle p) = p.2 := rfl

theorem jGet_cumPct (p : Str × ℚ) (c : ℚ) (a : Str) :
    jNum (jGet (rowTitle p ++
      [(str "cum_pct", JVal.num c), (str "abc", JVal.str a)]) (str "cum_pct")) = c := rfl

theorem abcLoop_eq (total : ℚ) :
    ∀ (l : List (Str × ℚ)) (cum : ℚ),
      abcLoop total cum (l.map rowTitle) =
        (l.zip (prefSums cum (l.map Prod.snd))).map
          (fun x => rowTitle x.1 ++
            [(str "cum_pct", JVal.num (pyRound1 (x.2 / total * 100))),
             (str "abc", JVal.str (clsOf (x.2 / total * 100)))])
  | [], _ => rfl
  | p :: rest, cum => by
    simp only [List.map_cons, abcLoop, jTotal_rowTitle, prefSums, List.zip_cons_cons, clsOf]
    rw [abcLoop_eq total rest (cum + p.2)]
    simp only [clsOf]

theorem prefSums_length (c : ℚ) (l : List ℚ) : (prefSums c l).length = l.length := by
  induction l generalizing c with
  | nil => rfl
  | cons q qs ih => simp [prefSums, ih]

theorem prefSums_chain :
    ∀ (l : List ℚ), (∀ q ∈ l, 0 ≤ q) → ∀ c : ℚ, List.Chain' (· ≤ ·) (prefSums c l)
  | [], _, _ => List.chain'_nil
  | q :: qs, h, c => by
    simp only [prefSums]
    rw [List.chain'_cons']
    constructor
    · intro b hb
      cases qs with
      | nil => simp [prefSums] at hb
      | cons q2 qs2 =>
        simp only [prefSums, List.head?_cons, Option.mem_def, Option.some.injEq] at hb
        have h2 : 0 ≤ q2 := h q2 (by simp)
        rw [← hb]
        linarith
    · exact prefSums_chain qs (fun x hx => h x (List.mem_cons_of_mem _ hx)) (c + q)

theorem prefSums_getLast? :
    ∀ (l : List ℚ), l ≠ [] → ∀ c : ℚ, (prefSums c l).getLast? = some (c + l.sum)
  | [], h, _ => absurd rfl h
  | [q], _, c => by simp [prefSums]
  | q :: q2 :: rest, _, c => by
    have tail := prefSums_getLast? (q2 :: rest) (by simp) (c + q)
    simp only [prefSums] at tail ⊢
    rw [List.getLast?_cons_cons, tail]
    simp only [List.sum_cons, Option.some.injEq]
    ring

theorem jTotal_monthRow (p : Str × ℚ) : jTotal (monthRow p) = p.2 := rfl

theorem jGet_month_monthRow (p : Str × ℚ) : jGet (monthRow p) (str "month") = JVal.str p.1 := rfl

theorem jGet_total_monthRow (p : Str × ℚ) : jGet (monthRow p) (str "total") = JVal.num p.2 := rfl

theorem isCent_BUDGET_MONTHLY : IsCent BUDGET_MONTHLY :=
  ⟨312500, by norm_num [BUDGET_MONTHLY]⟩

theorem over_budget_cons (m : JObj) (l : List JObj) :
    over_budget_months (m :: l) =
      (if BUDGET_MONTHLY < jTotal m then
        [[(str "month", jGet m (str "month")), (str "total", jGet m (str "total")),
          (str "over_amount", JVal.num (pyRound2 (jTotal m - BUDGET_MONTHLY)))]]
       else []) ++ over_budget_months l := by
  simp only [over_budget_months, List.filterMap_cons]
  split_ifs <;> simp

/-! ## Claim theorems -/

theorem categorize_conta_cases (d : Str) (a : ℚ) (e : Str) :
    categorize_conta d a e ∈ MASTER_CATEGORIES ∧
    (0 < a → categorize_conta d a e ∈ MASTER_CATEGORIES_ENTRADA ∧
      categorize_conta d a e ∉ MASTER_CATEGORIES_DESPESA) ∧
    (a ≤ 0 → categorize_conta d a e ∈ MASTER_CATEGORIES_DESPESA ∧
      categorize_conta d a e ∉ MASTER_CATEGORIES_ENTRADA) := by
  unfold categorize_conta
  dsimp only
  generalize containsSeq (str "transferência recebida") (pyLower d) = b1
  generalize containsSeq (str "transferência recebida pelo pix") (pyLower d) = b2
  generalize containsSeq (str "rodrigo ribas") (pyLower d) = b3
  generalize containsSeq (str "nu pagamentos") (pyLower d) = b4
  generalize containsSeq (str "resgate rdb") (pyLower d) = b5
  generalize containsSeq (str "pagamento de fatura") (pyLower d) = b6
  generalize containsSeq (str "receita federal") (pyLower d) = b7
  generalize containsSeq (str "ipva") (pyLower d) = b8
  generalize containsSeq (str "sefaz") (pyLower d) = b9
  generalize containsSeq (str "telefonica") (pyLower d) = b10
  generalize containsSeq (str "tel3") (pyLower d) = b11
  generalize containsSeq (str "cia estadual de distribui") (pyLower d) = b12
  generalize containsSeq (str "cia riograndense de saneamento") (pyLower d) = b13
  generalize containsSeq (str "aplicação rdb") (pyLower d) = b14
  generalize containsSeq (str "aplicacao rdb") (pyLower d) = b15
  generalize containsSeq (str "pagamento de boleto") (pyLower d) = b16
  generalize containsSeq (str "consorcio") (pyLower d) = b17
  generalize containsSeq (str "consórcio") (pyLower d) = b18
  generalize containsSeq (str "compra no débito") (pyLower d) = b19
  generalize containsSeq (str "compra no debito") (pyLower d) = b20
  generalize containsSeq (str "posto") (pyLower d) = b21
  generalize containsSeq (str "gasolina") (pyLower d) = b22
  generalize containsSeq (str "supermerc") (pyLower d) = b23
  generalize containsSeq (str "mercado") (pyLower d) = b24
  generalize containsSeq (str "hortifruti") (pyLower d) = b25
  generalize containsSeq (str "restaurante") (pyLower d) = b26
  generalize containsSeq (str "lanch") (pyLower d) = b27
  generalize containsSeq (str "padaria") (pyLower d) = b28
  generalize containsSeq (str "transferência enviada pelo pix") (pyLower d) = b29
  generalize containsSeq (str "mercadopago") (pyLower d) = b30
  generalize containsSeq (str "pagseguro") (pyLower d) = b31
  generalize containsSeq (str "nubank") (pyLower d) = b32
  generalize containsSeq (str "edison") (pyLower d) = b33
  generalize containsSeq (str "kirsten") (pyLower d) = b34
  generalize containsSeq (str "•••") d = b35
  generalize containsSeq (str "receita federal") (pyLower e) = b36
  generalize containsSeq (str "tel3 telecom") (pyLower e) = b37
  generalize containsSeq (str "consorcio") (pyLower e) = b38
  generalize containsSeq (str "fornecedor") (pyLower e) = b39
  by_cases h0 : 0 < a
  · rw [if_pos h0]
    by_cases h1 : (b1 || b2) = true
    · rw [if_pos h1]
      by_cases h2 : (b3 || b4) = true
      · rw [if_pos h2]
        exact ⟨by decide, fun _ => ⟨by decide, by decide⟩, fun ha => absurd h0 (not_lt.mpr ha)⟩
      · rw [if_neg h2]
        exact ⟨by decide, fun _ => ⟨by decide, by decide⟩, fun ha => absurd h0 (not_lt.mpr ha)⟩
    · rw [if_neg h1]
      by_cases h3 : (b5) = true
      · rw [if_pos h3]
        exact ⟨by decide, fun _ => ⟨by decide, by decide⟩, fun ha => absurd h0 (not_lt.mpr ha)⟩
      · rw [if_neg h3]
        exact ⟨by decide, fun _ => ⟨by decide, by decide⟩, fun ha => absurd h0 (not_lt.mpr ha)⟩
  · rw [if_neg h0]
    by_cases h4 : (b6) = true
    · rw [if_pos h4]
      exact ⟨by decide, fun hpos => absurd hpos h0, fun _ => ⟨by decide, by decide⟩⟩
    · rw [if_neg h4]
      by_cases h5 : (b7 || b8 || b9 || b36) = true
      · rw [if_pos h5]
        exact ⟨by decide, fun hpos => absurd hpos h0, fun _ => ⟨by decide, by decide⟩⟩
      · rw [if_neg h5]
        by_cases h6 : (b10 || b11 || b37) = true
        · rw [if_pos h6]
          exact ⟨by decide, fun hpos => absurd hpos h0, fun _ => ⟨by decide, by decide⟩⟩
        · rw [if_neg h6]
          by_cases h7 : (b12 || b13) = true
          · rw [if_pos h7]
            exact ⟨by decide, fun hpos => absurd hpos h0, fun _ => ⟨by decide, by decide⟩⟩
          · rw [if_neg h7]
            by_cases h8 : (b14 || b15) = true
            · rw [if_pos h8]
              exact ⟨by decide, fun hpos => absurd hpos h0, fun _ => ⟨by decide, by decide⟩⟩
            · rw [if_neg h8]
              by_cases h9 : (b16) = true
              · rw [if_pos h9]
                by_cases h10 : (b17 || b18 || b38) = true
                · rw [if_pos h10]
                  exact ⟨by decide, fun hpos => absurd hpos h0, fun _ => ⟨by decide, by decide⟩⟩
                · rw [if_neg h10]
                  exact ⟨by decide, fun hpos => absurd hpos h0, fun _ => ⟨by decide, by decide⟩⟩
              · rw [if_neg h9]
                by_cases h11 : (b19 || b20) = true
                · rw [if_pos h11]
                  by_cases h12 : (b21 || b22) = true
                  · rw [if_pos h12]
                    exact ⟨by decide, fun hpos => absurd hpos h0, fun _ => ⟨by decide, by decide⟩⟩
                  · rw [if_neg h12]
                    by_cases h13 : (b23 || b24 || b25) = true
                    · rw [if_pos h13]
                      exact ⟨by decide, fun hpos => absurd hpos h0, fun _ => ⟨by decide, by decide⟩⟩
                    · rw [if_neg h13]
                      by_cases h14 : (b26 || b27 || b28) = true
                      · rw [if_pos h14]
                        by_cases h15 : (b26 || b27) = true
                        · rw [if_pos h15]
                          exact ⟨by decide, fun hpos => absurd hpos h0, fun _ => ⟨by decide, by decide⟩⟩
                        · rw [if_neg h15]
                          exact ⟨by decide, fun hpos => absurd hpos h0, fun _ => ⟨by decide, by decide⟩⟩
                      · rw [if_neg h14]
                        exact ⟨by decide, fun hpos => absurd hpos h0, fun _ => ⟨by decide, by decide⟩⟩
                · rw [if_neg h11]
                  by_cases h16 : (b29) = true
                  · rw [if_pos h16]
                    by_cases h17 : (b35) = true
                    · rw [if_pos h17]
                      exact ⟨by decide, fun hpos => absurd hpos h0, fun _ => ⟨by decide, by decide⟩⟩
                    · rw [if_neg h17]
                      by_cases h18 : (b30 || b31) = true
                      · rw [if_pos h18]
                        exact ⟨by decide, fun hpos => absurd hpos h0, fun _ => ⟨by decide, by decide⟩⟩
                      · rw [if_neg h18]
                        by_cases h19 : (b17 || b18) = true
                        · rw [if_pos h19]
                          exact ⟨by decide, fun hpos => absurd hpos h0, fun _ => ⟨by decide, by decide⟩⟩
                        · rw [if_neg h19]
                          by_cases h20 : (b32) = true
                          · rw [if_pos h20]
                            exact ⟨by decide, fun hpos => absurd hpos h0, fun _ => ⟨by decide, by decide⟩⟩
                          · rw [if_neg h20]
                            by_cases h21 : (b33 || b39 || b34) = true
                            · rw [if_pos h21]
                              exact ⟨by decide, fun hpos => absurd hpos h0, fun _ => ⟨by decide, by decide⟩⟩
                            · rw [if_neg h21]
                              exact ⟨by decide, fun hpos => absurd hpos h0, fun _ => ⟨by decide, by decide⟩⟩
                  · rw [if_neg h16]
                    exact ⟨by decide, fun hpos => absurd hpos h0, fun _ => ⟨by decide, by decide⟩⟩

theorem categorize_cases (t : Str) : categorize t ∈ MASTER_CATEGORIES_DESPESA := by
  unfold categorize
  dsimp only
  generalize List.any [str "supermerc", str "mercado", str "hortifruti", str "mercearia", str "atacad", str "fruteira", str "carrefour"] (fun k => containsSeq k (pyLower t)) = c1
  generalize List.any [str "posto", str "gasbom", str "gasolina", str "abastece"] (fun k => containsSeq k (pyLower t)) = c2
  generalize List.any [str "uber", str "via sul", str "concessionaria", str "concessionária"] (fun k => containsSeq k (pyLower t)) = c3
  generalize List.any [str "pedágio", str "estacionamento"] (fun k => containsSeq k (pyLower t)) = c4
  generalize List.any [str "academia", str "prime fit"] (fun k => containsSeq k (pyLower t)) = c5
  generalize List.any [str "farmacia", str "farmácia", str "panvel", str "sao joao", str "são joão"] (fun k => containsSeq k (pyLower t)) = c6
  generalize List.any [str "ricky", str "xis", str "lanches", str "restaurante", str "pizzaria", str "buffon", str "padaria", str "lanchonete", str "hamburguer", str "minhocaburger", str "rancho", str "a lenha", str "cia do sabor", str "cremolatto", str "delivery"] (fun k => containsSeq k (pyLower t)) = c7
  generalize List.any [str "restaurante", str "pizzaria", str "buffon", str "hamburguer", str "rancho", str "cia do sabor"] (fun x => containsSeq x (pyLower t)) = c12
  generalize List.any [str "google", str "youtube", str "netflix", str "assinatura", str "juliocesar", str "gemeascel", str "conta vivo", str "contavivo"] (fun k => containsSeq k (pyLower t)) = c8
  generalize List.any [str "barbeiro", str "xbeleza", str "beleza", str "barbearia"] (fun k => containsSeq k (pyLower t)) = c9
  generalize List.any [str "rede farroupilha", str "estacionamentos"] (fun k => containsSeq k (pyLower t)) = c10
  generalize List.any [str "bazar", str "havan", str "lojas americanas", str "leroy", str "amazon"] (fun k => containsSeq k (pyLower t)) = c11
  by_cases g1 : (c1) = true
  · rw [if_pos g1]
    decide
  · rw [if_neg g1]
    by_cases g2 : (c2) = true
    · rw [if_pos g2]
      decide
    · rw [if_neg g2]
      by_cases g3 : (c3) = true
      · rw [if_pos g3]
        decide
      · rw [if_neg g3]
        by_cases g4 : (c4) = true
        · rw [if_pos g4]
          decide
        · rw [if_neg g4]
          by_cases g5 : (c5) = true
          · rw [if_pos g5]
            decide
          · rw [if_neg g5]
            by_cases g6 : (c6) = true
            · rw [if_pos g6]
              decide
            · rw [if_neg g6]
              by_cases g7 : (c7) = true
              · rw [if_pos g7]
                by_cases g8 : (c12) = true
                · rw [if_pos g8]
                  decide
                · rw [if_neg g8]
                  decide
              · rw [if_neg g7]
                by_cases g9 : (c8) = true
                · rw [if_pos g9]
                  decide
                · rw [if_neg g9]
                  by_cases g10 : (c9) = true
                  · rw [if_pos g10]
                    decide
                  · rw [if_neg g10]
                    by_cases g11 : (c10) = true
                    · rw [if_pos g11]
                      decide
                    · rw [if_neg g11]
                      by_cases g12 : (c11) = true
                      · rw [if_pos g12]
                        decide
                      · rw [if_neg g12]
                        decide

/-- C2: for every description, amount and entity, `categorize_conta` returns
one category from the closed master taxonomy; for positive amounts the
result lies in `MASTER_CATEGORIES_ENTRADA` and never in
`MASTER_CATEGORIES_DESPESA`, for negative amounts it lies in
`MASTER_CATEGORIES_DESPESA` and never in `MASTER_CATEGORIES_ENTRADA`;
`categorize` on card titles always returns an element of
`MASTER_CATEGORIES_DESPESA`. -/
theorem c2_classification_totality :
    (∀ (d : Str) (a : ℚ) (e : Str), categorize_conta d a e ∈ MASTER_CATEGORIES) ∧
    (∀ (d : Str) (a : ℚ) (e : Str), 0 < a →
      categorize_conta d a e ∈ MASTER_CATEGORIES_ENTRADA ∧
      categorize_conta d a e ∉ MASTER_CATEGORIES_DESPESA) ∧
    (∀ (d : Str) (a : ℚ) (e : Str), a < 0 →
      categorize_conta d a e ∈ MASTER_CATEGORIES_DESPESA ∧
      categorize_conta d a e ∉ MASTER_CATEGORIES_ENTRADA) ∧
    (∀ t : Str, categorize t ∈ MASTER_CATEGORIES_DESPESA) :=
  ⟨fun d a e => (categorize_conta_cases d a e).1,
   fun d a e h => (categorize_conta_cases d a e).2.1 h,
   fun d a e h => (categorize_conta_cases d a e).2.2 (le_of_lt h),
   categorize_cases⟩

/-- Witness for C2 at concrete inputs: an unmatched deposit of `1.0` is
classified as income, an unmatched withdrawal of `-1.0` as an expense. -/
theorem c2_classification_totality_witness :
    ((0:ℚ) < 1 ∧
      (categorize_conta (str "abc") 1 (str "") ∈ MASTER_CATEGORIES_ENTRADA ∧
       categorize_conta (str "abc") 1 (str "") ∉ MASTER_CATEGORIES_DESPESA)) ∧
    ((-1:ℚ) < 0 ∧
      (categorize_conta (str "abc") (-1) (str "") ∈ MASTER_CATEGORIES_DESPESA ∧
       categorize_conta (str "abc") (-1) (str "") ∉ MASTER_CATEGORIES_ENTRADA)) :=
  ⟨⟨by norm_num, c2_classification_totality.2.1 (str "abc") 1 (str "") (by norm_num)⟩,
   ⟨by norm_num, c2_classification_totality.2.2.1 (str "abc") (-1) (str "") (by norm_num)⟩⟩

/-- C4: on monthly aggregates with two-decimal totals, `over_budget_months`
emits exactly the months whose total strictly exceeds `BUDGET_MONTHLY`,
with `over_amount` equal to `total - BUDGET_MONTHLY` exactly; months at or
below the ceiling produce no entry. -/
theorem c4_over_budget_months :
    ∀ (bm : List (Str × ℚ)), (∀ p ∈ bm, IsCent p.2) →
      over_budget_months (bm.map monthRow) =
        (bm.filter (fun p => decide (BUDGET_MONTHLY < p.2))).map
          (fun p => [(str "month", JVal.str p.1), (str "total", JVal.num p.2),
                     (str "over_amount", JVal.num (p.2 - BUDGET_MONTHLY))])
  | [], _ => rfl
  | p :: rest, h => by
    have hrest := c4_over_budget_months rest (fun x hx => h x (List.mem_cons_of_mem _ hx))
    have hcent : IsCent (p.2 - BUDGET_MONTHLY) :=
      (h p (List.mem_cons_self _ _)).sub isCent_BUDGET_MONTHLY
    by_cases hp : BUDGET_MONTHLY < p.2
    · rw [List.map_cons, over_budget_cons,
        if_pos (by rw [jTotal_monthRow]; exact hp),
        filter_cons_true _ _ _ (by simpa using hp)]
      simp only [jGet_month_monthRow, jGet_total_monthRow, jTotal_monthRow, List.map_cons,
        List.singleton_append]
      rw [hrest, pyRound2_cent hcent]
    · rw [List.map_cons, over_budget_cons,
        if_neg (by rw [jTotal_monthRow]; exact hp),
        filter_cons_false _ _ _ (by simpa using hp)]
      simpa using hrest

/-- Witness for C4 at the spec scenario: a month of `3500.00` against the
`3125.00` ceiling yields `over_amount = 375.00`, and a month at the ceiling
yields no entry. -/
theorem c4_over_budget_months_witness :
    (∀ p ∈ [((str "2025-03"), (3500 : ℚ)), ((str "2025-04"), (3125 : ℚ))], IsCent p.2) ∧
    over_budget_months ([((str "2025-03"), (3500 : ℚ)),
        ((str "2025-04"), (3125 : ℚ))].map monthRow) =
      [[(str "month", JVal.str (str "2025-03")), (str "total", JVal.num 3500),
        (str "over_amount", JVal.num 375)]] := by
  have hc : ∀ p ∈ [((str "2025-03"), (3500 : ℚ)), ((str "2025-04"), (3125 : ℚ))], IsCent p.2 := by
    intro p hp
    rcases List.mem_cons.mp hp with h | h
    · rw [h]
      exact ⟨350000, by norm_num⟩
    · rcases List.mem_cons.mp h with h2 | h2
      · rw [h2]
        exact ⟨312500, by norm_num⟩
      · simp at h2
  refine ⟨hc, (c4_over_budget_months _ hc).trans ?_⟩
  decide

/-- C9: `parse_amount` strips surrounding whitespace, replaces each decimal
comma with a decimal point and parses the result as a float; on parse
failure it returns `0.0` instead of failing; and the credit-card loader
retains a row carrying a malformed amount (with amount `0.0`) whenever its
date is present, rather than dropping it. -/
theorem c9_parse_amount :
    (∀ (s : Str) (q : ℚ), parseFloat? (replaceChar ',' '.' (pyStrip s)) = some q →
      parse_amount s = q) ∧
    (∀ s : Str, parseFloat? (replaceChar ',' '.' (pyStrip s)) = none → parse_amount s = 0) ∧
    (∀ row : CsvRow, pyStrip (row.date.getD []) ≠ [] →
      csvProcessRow row =
        some ⟨pyStrip (row.date.getD []), pyStrip (row.title.getD []),
              parse_amount (row.amount.getD (str "0"))⟩) := by
  refine ⟨?_, ?_, ?_⟩
  · intro s q h
    unfold parse_amount
    rw [h]
    rfl
  · intro s h
    unfold parse_amount
    rw [h]
    rfl
  · intro row h
    unfold csvProcessRow
    dsimp only
    rw [if_neg h]

/-- Witness for C9: `" 3,5 "` parses to `3.5`; `"abc"` fails and is coerced
to `0.0`; a row with amount `"abc"` and a present date is retained. -/
theorem c9_parse_amount_witness :
    (parseFloat? (replaceChar ',' '.' (pyStrip (str " 3,5 "))) = some (7/2) ∧
      parse_amount (str " 3,5 ") = 7/2) ∧
    (parseFloat? (replaceChar ',' '.' (pyStrip (str "abc"))) = none ∧
      parse_amount (str "abc") = 0) ∧
    (pyStrip ((some (str "2025-01-05") : Option Str).getD []) ≠ [] ∧
      csvProcessRow ⟨some (str "2025-01-05"), some (str "x"), some (str "abc")⟩ =
        some ⟨str "2025-01-05", str "x", 0⟩) :=
  ⟨⟨by decide, c9_parse_amount.1 _ _ (by decide)⟩,
   ⟨by decide, c9_parse_amount.2.1 _ (by decide)⟩,
   ⟨by decide,
    (c9_parse_amount.2.2 ⟨some (str "2025-01-05"), some (str "x"), some (str "abc")⟩
      (by decide)).trans (by decide)⟩⟩

/-- C10: `parse_date` does no calendar-range validation: whenever the
stripped input splits on `/` into exactly three integer-parseable parts it
returns the zero-padded `YYYY-MM-DD` string built from those parts
verbatim, so `"40/13/2025"` yields `"2025-13-40"`, which the
checking-account loader accepts as a 2025 record. -/
theorem c10_parse_date :
    (∀ (s p1 p2 p3 : Str) (d m y : ℕ),
      splitOnChar '/' (pyStrip s) = [p1, p2, p3] →
      toNatDigits? p1 = some d → toNatDigits? p2 = some m → toNatDigits? p3 = some y →
      parse_date s = padNum 4 y ++ ['-'] ++ padNum 2 m ++ ['-'] ++ padNum 2 d) ∧
    parse_date (str "40/13/2025") = str "2025-13-40" ∧
    (∃ r ∈ load_all_conta_corrente
        [⟨some (str "40/13/2025"), some (str "1,00"), some (str "x")⟩],
      r.date = str "2025-13-40") := by
  refine ⟨?_, by decide, by decide⟩
  intro s p1 p2 p3 d m y hsplit h1 h2 h3
  unfold parse_date
  dsimp only
  by_cases hs : pyStrip s = []
  · rw [hs] at hsplit
    simp [splitOnChar] at hsplit
  · rw [if_neg hs, hsplit]
    dsimp only
    rw [h1, h2, h3]

/-- Witness for C10: the out-of-range date `"40/13/2025"` has three
integer-parseable parts and is rebuilt verbatim as `"2025-13-40"`. -/
theorem c10_parse_date_witness :
    splitOnChar '/' (pyStrip (str "40/13/2025")) = [str "40", str "13", str "2025"] ∧
    toNatDigits? (str "40") = some 40 ∧ toNatDigits? (str "13") = some 13 ∧
    toNatDigits? (str "2025") = some 2025 ∧
    parse_date (str "40/13/2025") =
      padNum 4 2025 ++ ['-'] ++ padNum 2 13 ++ ['-'] ++ padNum 2 40 :=
  ⟨by decide, by decide, by decide, by decide,
   c10_parse_date.1 (str "40/13/2025") (str "40") (str "13") (str "2025") 40 13 2025
     (by decide) (by decide) (by decide) (by decide)⟩

/-- C5 (amended): the checking-account loader silently drops any row whose
date fails to parse (empty `parse_date` result), and the credit-card loader
drops a row at load time only when its date field is empty after stripping;
a nonempty malformed date is retained there. -/
theorem c5_date_drop :
    (∀ row : ContaRow, parse_date (pyStrip (row.data.getD [])) = [] →
      contaProcessRow row = none) ∧
    (∀ row : CsvRow, pyStrip (row.date.getD []) = [] → csvProcessRow row = none) ∧
    (∀ row : CsvRow, pyStrip (row.date.getD []) ≠ [] → csvProcessRow row ≠ none) := by
  refine ⟨?_, ?_, ?_⟩
  · intro row h
    unfold contaProcessRow
    dsimp only
    rw [h, if_pos (by decide)]
  · intro row h
    unfold csvProcessRow
    dsimp only
    rw [if_pos h]
  · intro row h
    unfold csvProcessRow
    dsimp only
    rw [if_neg h]
    simp

/-- Witness for C5: a checking-account row dated `"bad"` is dropped; a
credit-card row with an empty date is dropped, one with a date present is
kept. -/
theorem c5_date_drop_witness :
    (parse_date (pyStrip ((some (str "bad") : Option Str).getD [])) = [] ∧
      contaProcessRow ⟨some (str "bad"), some (str "1.0"), some (str "x")⟩ = none) ∧
    (pyStrip ((some (str "  ") : Option Str).getD []) = [] ∧
      csvProcessRow ⟨some (str "  "), some (str "t"), some (str "1.0")⟩ = none) ∧
    (pyStrip ((some (str "2025-01-05") : Option Str).getD []) ≠ [] ∧
      csvProcessRow ⟨some (str "2025-01-05"), some (str "t"), some (str "1.0")⟩ ≠ none) :=
  ⟨⟨by decide, c5_date_drop.1 _ (by decide)⟩,
   ⟨by decide, c5_date_drop.2.1 _ (by decide)⟩,
   ⟨by decide, c5_date_drop.2.2 _ (by decide)⟩⟩

/-- Counterexample to C5 as stated: a credit-card row whose date is
malformed but nonempty (`"not-a-date"`, which `parse_date` cannot parse)
is NOT dropped by `load_all_csvs` — it appears in the loaded record set. -/
theorem c5_counterexample :
    parse_date (str "not-a-date") = [] ∧
    load_all_csvs [⟨some (str "not-a-date"), some (str "t"), some (str "1.0")⟩] =
      [⟨str "not-a-date", str "t", 1⟩] := by
  decide

/-- C6 (amended): monetary values are rounded to two decimals per record at
load time — every record produced by `load_2025_expenses` and
`load_all_conta_corrente` carries a two-decimal amount — and the aggregate
sums over these already-rounded values are rounded again at aggregation. -/
theorem c6_rounding_at_load :
    (∀ rows : List CsvRow, ∀ r ∈ load_2025_expenses rows, IsCent r.amount) ∧
    (∀ rows : List ContaRow, ∀ r ∈ load_all_conta_corrente rows, IsCent r.amount) := by
  constructor
  · intro rows r hr
    have hr2 : r ∈ rows.filterMap dashProcessRow :=
      (List.perm_insertionSort dashLe _).subset hr
    obtain ⟨row, _, hrow⟩ := List.mem_filterMap.mp hr2
    unfold dashProcessRow at hrow
    dsimp only at hrow
    by_cases h1 : ((str "2025-").isPrefixOf (pyStrip (row.date.getD []))) = true
    · rw [if_neg (not_not_intro h1)] at hrow
      by_cases h2 : is_blacklisted (pyStrip (row.title.getD [])) = true
      · rw [if_pos h2] at hrow
        exact Option.noConfusion hrow
      · rw [if_neg h2] at hrow
        rw [← Option.some.inj hrow]
        exact IsCent.pyRound2 _
    · rw [if_pos h1] at hrow
      exact Option.noConfusion hrow
  · intro rows r hr
    have hr2 : r ∈ rows.filterMap contaProcessRow :=
      (List.perm_insertionSort contaLe _).subset hr
    obtain ⟨row, _, hrow⟩ := List.mem_filterMap.mp hr2
    unfold contaProcessRow at hrow
    dsimp only at hrow
    by_cases h1 : ((str "2025-").isPrefixOf (parse_date (pyStrip (row.data.getD [])))) = true
    · rw [if_neg (not_not_intro h1)] at hrow
      by_cases h2 : is_blacklisted_conta (pyStrip (row.descricao.getD [])) = true
      · rw [if_pos h2] at hrow
        exact Option.noConfusion hrow
      · rw [if_neg h2] at hrow
        rw [← Option.some.inj hrow]
        exact IsCent.pyRound2 _
    · rw [if_pos h1] at hrow
      exact Option.noConfusion hrow

/-- Witness for C6: the loaded record for raw amount `"10.557"` carries the
two-decimal amount `10.56`. -/
theorem c6_rounding_at_load_witness :
    (⟨str "2025-01-05", str "x", 1056/100, str "Outros"⟩ : Rec) ∈
      load_2025_expenses [⟨some (str "2025-01-05"), some (str "x"), some (str "10.557")⟩] ∧
    IsCent ((⟨str "2025-01-05", str "x", 1056/100, str "Outros"⟩ : Rec).amount) :=
  ⟨by decide,
   c6_rounding_at_load.1 [⟨some (str "2025-01-05"), some (str "x"), some (str "10.557")⟩]
     ⟨str "2025-01-05", str "x", 1056/100, str "Outros"⟩ (by decide)⟩

/-- Counterexample to C6 as stated: the parsed value of `"10.557"` is
`10.557`, but the amount entering every aggregate sum is the per-record
rounded `10.56` — rounding happens before summation, not only at the
point of aggregation. -/
theorem c6_counterexample :
    parse_amount (str "10.557") = 10557/1000 ∧
    (load_2025_expenses
        [⟨some (str "2025-01-05"), some (str "x"), some (str "10.557")⟩]).map Rec.amount =
      [1056/100] ∧
    (1056/100 : ℚ) ≠ 10557/1000 := by
  decide

/-- C8 (amended): the credit-card loader output is sorted ascending by
`(date, title, amount)`, and the checking-account loader output is sorted
ascending by `(date, amount, description)` — not by `(date, title, amount)`
as the specification claims for both. -/
theorem c8_load_sort_order :
    (∀ rows : List CsvRow, List.Sorted dashLe (load_2025_expenses rows)) ∧
    (∀ rows : List ContaRow, List.Sorted contaLe (load_all_conta_corrente rows)) :=
  ⟨fun _ => List.sorted_insertionSort _ _, fun _ => List.sorted_insertionSort _ _⟩

/-- Counterexample to C8 as stated: two same-day checking-account rows come
out ordered by amount, violating the claimed `(date, title, amount)` order
(the entity/title order of the output is decreasing). -/
theorem c8_counterexample :
    load_all_conta_corrente
        [⟨some (str "01/01/2025"), some (str "5.00"), some (str "aaa")⟩,
         ⟨some (str "01/01/2025"), some (str "-3.00"), some (str "bbb")⟩] =
      [⟨str "2025-01-01", -3, str "bbb", str "bbb", str "Outros", str "saida"⟩,
       ⟨str "2025-01-01", 5, str "aaa", str "aaa", str "Outras entradas", str "entrada"⟩] ∧
    ¬ contaClaimLe
        ⟨str "2025-01-01", -3, str "bbb", str "bbb", str "Outros", str "saida"⟩
        ⟨str "2025-01-01", 5, str "aaa", str "aaa", str "Outras entradas", str "entrada"⟩ := by
  decide

theorem pyRound1_hundred : pyRound1 100 = 100 := by
  have h : (100 : ℚ) * 10 = ((1000 : ℤ) : ℚ) := by norm_num
  rw [pyRound1, h, rhe_intCast]
  norm_num

/-- C3 (amended): when the grand total is not positive `build_abc` returns
its input unchanged, adding no fields; otherwise, on entity rows with
non-negative totals sorted descending, taking the grand total to be the sum
of the totals, it assigns each entity `cum_pct` equal to the running sum
divided by the grand total times 100 rounded to one decimal, and an `abc`
class computed from the unrounded percentage (`A` iff `pct ≤ 80`, `B` iff
`80 < pct ≤ 95`, else `C`); the stored `cum_pct` values are non-decreasing
along the list and the last one equals exactly `100`. -/
theorem c3_build_abc :
    (∀ (l : List JObj) (total : ℚ), total ≤ 0 → build_abc l total = l) ∧
    (∀ l : List (Str × ℚ), (∀ p ∈ l, 0 ≤ p.2) → List.Sorted pairDesc l →
      0 < (l.map Prod.snd).sum →
      build_abc (l.map rowTitle) ((l.map Prod.snd).sum) =
        (l.zip (prefSums 0 (l.map Prod.snd))).map
          (fun x => rowTitle x.1 ++
            [(str "cum_pct", JVal.num (pyRound1 (x.2 / (l.map Prod.snd).sum * 100))),
             (str "abc", JVal.str (clsOf (x.2 / (l.map Prod.snd).sum * 100)))]) ∧
      List.Chain' (· ≤ ·)
        (cumPcts (build_abc (l.map rowTitle) ((l.map Prod.snd).sum))) ∧
      (cumPcts (build_abc (l.map rowTitle) ((l.map Prod.snd).sum))).getLast? =
        some 100) := by
  constructor
  · intro l total h
    unfold build_abc
    rw [if_pos h]
  · intro l h0 _ hpos
    have hne : ¬ (l.map Prod.snd).sum ≤ 0 := not_le.mpr hpos
    have hmain : build_abc (l.map rowTitle) ((l.map Prod.snd).sum) =
        (l.zip (prefSums 0 (l.map Prod.snd))).map
          (fun x => rowTitle x.1 ++
            [(str "cum_pct", JVal.num (pyRound1 (x.2 / (l.map Prod.snd).sum * 100))),
             (str "abc", JVal.str (clsOf (x.2 / (l.map Prod.snd).sum * 100)))]) := by
      unfold build_abc
      rw [if_neg hne]
      exact abcLoop_eq _ l 0
    have hlen : (prefSums 0 (l.map Prod.snd)).length ≤ l.length := by
      rw [prefSums_length, List.length_map]
    have hcum : cumPcts (build_abc (l.map rowTitle) ((l.map Prod.snd).sum)) =
        (prefSums 0 (l.map Prod.snd)).map
          (fun c => pyRound1 (c / (l.map Prod.snd).sum * 100)) := by
      rw [hmain]
      unfold cumPcts
      rw [List.map_map]
      have hstep : ∀ x ∈ l.zip (prefSums 0 (l.map Prod.snd)),
          ((fun o => jNum (jGet o (str "cum_pct"))) ∘
            (fun x => rowTitle x.1 ++
              [(str "cum_pct", JVal.num (pyRound1 (x.2 / (l.map Prod.snd).sum * 100))),
               (str "abc", JVal.str (clsOf (x.2 / (l.map Prod.snd).sum * 100)))])) x =
          ((fun c => pyRound1 (c / (l.map Prod.snd).sum * 100)) ∘ Prod.snd) x :=
        fun x _ => jGet_cumPct x.1 (pyRound1 (x.2 / (l.map Prod.snd).sum * 100))
          (clsOf (x.2 / (l.map Prod.snd).sum * 100))
      rw [List.map_congr_left hstep, ← List.map_map,
        List.map_snd_zip _ _ (by rw [prefSums_length, List.length_map])]
    have hmono : ∀ a b : ℚ, a ≤ b →
        pyRound1 (a / (l.map Prod.snd).sum * 100) ≤
          pyRound1 (b / (l.map Prod.snd).sum * 100) := by
      intro a b hab
      apply pyRound1_mono
      have := (div_le_div_iff_of_pos_right hpos).mpr hab
      nlinarith
    refine ⟨hmain, ?_, ?_⟩
    · rw [hcum]
      exact List.chain'_map_of_chain' _ (fun a b h => hmono a b h)
        (prefSums_chain _
          (fun q hq => by
            obtain ⟨p, hp, hpq⟩ := List.mem_map.mp hq
            rw [← hpq]
            exact h0 p hp) 0)
    · have hlne : l.map Prod.snd ≠ [] := by
        intro hnil
        rw [hnil] at hpos
        simp at hpos
      rw [hcum, List.getLast?_map, prefSums_getLast? _ hlne 0]
      have hdiv : (0 + (l.map Prod.snd).sum) / (l.map Prod.snd).sum * 100 = 100 := by
        rw [zero_add, div_self (ne_of_gt hpos), one_mul]
      simp only [Option.map_some', hdiv, pyRound1_hundred]

/-- Witness for C3 at the spec scenario `[A: 800, B: 150, C: 50]` (total
1000): `A` ends at 80.0 percent in class `A`, `B` at 95.0 in class `B`,
`C` at 100.0 in class `C`. -/
theorem c3_build_abc_witness :
    (∀ p ∈ [((str "a"), (800:ℚ)), ((str "b"), 150), ((str "c"), 50)], 0 ≤ p.2) ∧
    List.Sorted pairDesc [((str "a"), (800:ℚ)), ((str "b"), 150), ((str "c"), 50)] ∧
    0 < ([((str "a"), (800:ℚ)), ((str "b"), 150), ((str "c"), 50)].map Prod.snd).sum ∧
    build_abc ([((str "a"), (800:ℚ)), ((str "b"), 150), ((str "c"), 50)].map rowTitle)
        (([((str "a"), (800:ℚ)), ((str "b"), 150), ((str "c"), 50)].map Prod.snd).sum) =
      [[(str "title", JVal.str (str "a")), (str "total", JVal.num 800),
        (str "cum_pct", JVal.num 80), (str "abc", JVal.str (str "A"))],
       [(str "title", JVal.str (str "b")), (str "total", JVal.num 150),
        (str "cum_pct", JVal.num 95), (str "abc", JVal.str (str "B"))],
       [(str "title", JVal.str (str "c")), (str "total", JVal.num 50),
        (str "cum_pct", JVal.num 100), (str "abc", JVal.str (str "C"))]] := by
  have h0 : ∀ p ∈ [((str "a"), (800:ℚ)), ((str "b"), 150), ((str "c"), 50)], 0 ≤ p.2 := by
    decide
  have hs : List.Sorted pairDesc [((str "a"), (800:ℚ)), ((str "b"), 150), ((str "c"), 50)] := by
    decide
  have hp : 0 < ([((str "a"), (800:ℚ)), ((str "b"), 150), ((str "c"), 50)].map Prod.snd).sum := by
    decide
  exact ⟨h0, hs, hp, ((c3_build_abc.2 _ h0 hs hp).1).trans (by decide)⟩

/-- Counterexample to C3 as stated: with entity totals `[8004, 1996]`
(grand total 10000) the first stored `cum_pct` is `80.0 ≤ 80` yet the
assigned class is `B`, because the code thresholds the unrounded 80.04;
and with totals `[5, -1]` (grand total 4 > 0, sorted descending) the
stored `cum_pct` values are `[125.0, 100.0]`, which are not
non-decreasing. -/
theorem c3_counterexample :
    (cumPcts (build_abc ([((str "a"), (8004:ℚ)), ((str "b"), 1996)].map rowTitle)
        10000)).head? = some 80 ∧
    ((80:ℚ) ≤ 80) ∧
    jGet ((build_abc ([((str "a"), (8004:ℚ)), ((str "b"), 1996)].map rowTitle)
        10000).headD []) (str "abc") = JVal.str (str "B") ∧
    JVal.str (str "B") ≠ JVal.str (str "A") ∧
    cumPcts (build_abc ([((str "x"), (5:ℚ)), ((str "y"), -1)].map rowTitle) 4) =
      [125, 100] ∧
    ¬ ((125:ℚ) ≤ 100) := by
  decide

theorem setVal_mem_self {l : List (Str × ℚ)} {k : Str} (h : hasKey l k = true) (v : ℚ) :
    (k, v) ∈ setVal k v l := by
  induction l with
  | nil => simp [hasKey] at h
  | cons p rest ih =>
    by_cases hp : p.1 = k
    · rw [setVal, if_pos hp, hp]
      exact List.mem_cons_self _ _
    · have hb : (p.1 == k) = false := by simpa using hp
      simp only [hasKey, List.any_cons, hb, Bool.false_or] at h
      rw [setVal, if_neg hp]
      exact List.mem_cons_of_mem _ (ih h)

theorem setVal_mem_ne {l : List (Str × ℚ)} {p : Str × ℚ} (hmem : p ∈ l) {k : Str}
    (hne : p.1 ≠ k) (v : ℚ) : p ∈ setVal k v l := by
  induction l with
  | nil => simp at hmem
  | cons q rest ih =>
    rcases List.mem_cons.mp hmem with h | h
    · by_cases hq : q.1 = k
      · rw [← h] at hq
        exact absurd hq hne
      · rw [setVal, if_neg hq, h]
        exact List.mem_cons_self _ _
    · by_cases hq : q.1 = k
      · rw [setVal, if_pos hq]
        exact List.mem_cons_of_mem _ h
      · rw [setVal, if_neg hq]
        exact List.mem_cons_of_mem _ (ih h)

theorem jTotal_catRow (c : Str) (v : ℚ) :
    jTotal [(str "category", JVal.str c), (str "total", JVal.num v)] = v := rfl

/-- C7 (amended): `aggregate_by_category` assigns to each occurring category
the two-decimal rounding of the sum of the signed amounts of its records
(equal to the sum of absolute amounts when all amounts are non-negative)
and is sorted descending by total; the checking-account table of
`build_conta_payload` assigns to each outflow category the rounded sum of
the absolute outflow amounts, except that `Pagamento cartão` is replaced by
the rounded card total when that total is nonzero, and is likewise sorted
descending by total. -/
theorem c7_category_totals :
    (∀ (rs : List Rec) (c : Str), (∃ r ∈ rs, r.category = c) →
      [(str "category", JVal.str c),
       (str "total",
        JVal.num (pyRound2 (((rs.filter (fun r => r.category == c)).map
          (fun r => r.amount)).sum)))] ∈ aggregate_by_category rs) ∧
    (∀ rs : List Rec, List.Sorted jTotalDesc (aggregate_by_category rs)) ∧
    (∀ (ts : List ContaRec) (tc : ℚ), List.Sorted jTotalDesc (conta_by_category ts tc)) ∧
    (∀ (ts : List ContaRec) (tc : ℚ) (c : Str),
      (∃ t ∈ ts.filter (fun t => t.amount < 0), contaCatKey t = c) →
      (c ≠ str "Pagamento cartão" ∨ tc = 0 →
        [(str "category", JVal.str c),
         (str "total",
          JVal.num (pyRound2 ((((ts.filter (fun t => t.amount < 0)).filter
            (fun t => contaCatKey t == c)).map (fun t => |t.amount|)).sum)))] ∈
          conta_by_category ts tc) ∧
      (c = str "Pagamento cartão" → tc ≠ 0 →
        [(str "category", JVal.str c), (str "total", JVal.num (pyRound2 tc))] ∈
          conta_by_category ts tc)) := by
  refine ⟨?_, ?_, ?_, ?_⟩
  · intro rs c hex
    obtain ⟨r, hr, hc⟩ := hex
    have hk : hasKey (groupSum (fun r => r.category) (fun r => r.amount) rs) c = true := by
      rw [← hc]
      exact hasKey_groupSum _ _ hr
    have hmem := mem_of_hasKey hk
    have hq := groupSum_getQ (fun r => r.category) (fun r => r.amount) rs c
    rw [hq] at hmem
    unfold aggregate_by_category
    apply (List.perm_insertionSort jTotalDesc _).mem_iff.mpr
    exact List.mem_map_of_mem
      (fun p => [(str "category", JVal.str p.1), (str "total", JVal.num (pyRound2 p.2))]) hmem
  · intro rs
    exact List.sorted_insertionSort _ _
  · intro ts tc
    unfold conta_by_category
    dsimp only
    refine List.Pairwise.map _ ?_ (List.sorted_insertionSort pairDesc _)
    intro a b hab
    unfold jTotalDesc
    rw [jTotal_catRow, jTotal_catRow]
    exact pyRound2_mono hab
  · intro ts tc c hex
    obtain ⟨t, ht, hc⟩ := hex
    have hk : hasKey (groupSum contaCatKey (fun t => |t.amount|)
        (ts.filter (fun t => t.amount < 0))) c = true := by
      rw [← hc]
      exact hasKey_groupSum _ _ ht
    constructor
    · intro hcase
      have hmem := mem_of_hasKey hk
      have hq := groupSum_getQ contaCatKey (fun t => |t.amount|)
        (ts.filter (fun t => t.amount < 0)) c
      rw [hq] at hmem
      unfold conta_by_category
      dsimp only
      by_cases hcond : tc ≠ 0 ∧ hasKey (groupSum contaCatKey (fun t => |t.amount|)
          (ts.filter (fun t => t.amount < 0))) (str "Pagamento cartão") = true
      · rw [if_pos hcond]
        rcases hcase with hne | h0
        · exact List.mem_map_of_mem _
            ((List.perm_insertionSort pairDesc _).mem_iff.mpr (setVal_mem_ne hmem hne _))
        · exact absurd h0 hcond.1
      · rw [if_neg hcond]
        exact List.mem_map_of_mem _
          ((List.perm_insertionSort pairDesc _).mem_iff.mpr hmem)
    · intro hpc htc
      have hcond : tc ≠ 0 ∧ hasKey (groupSum contaCatKey (fun t => |t.amount|)
          (ts.filter (fun t => t.amount < 0))) (str "Pagamento cartão") = true := by
        constructor
        · exact htc
        · rw [← hpc]
          exact hk
      have hsv := setVal_mem_self hcond.2 (pyRound2 tc)
      unfold conta_by_category
      dsimp only
      rw [if_pos hcond]
      have hrow := List.mem_map_of_mem
        (fun p => [(str "category", JVal.str p.1), (str "total", JVal.num (pyRound2 p.2))])
        ((List.perm_insertionSort pairDesc _).mem_iff.mpr hsv)
      rw [hpc]
      have hrr : pyRound2 (pyRound2 tc) = pyRound2 tc := pyRound2_cent (IsCent.pyRound2 tc)
      simp only [hrr] at hrow
      exact hrow

/-- Witness for C7: a single card expense of `5.00` under `Mercado`, and a
checking-account `Pagamento cartão` outflow replaced by the card total. -/
theorem c7_category_totals_witness :
    (∃ r ∈ [(⟨str "2025-01-05", str "x", 5, str "Mercado"⟩ : Rec)],
      r.category = str "Mercado") ∧
    [(str "category", JVal.str (str "Mercado")),
     (str "total",
      JVal.num (pyRound2 ((([(⟨str "2025-01-05", str "x", 5, str "Mercado"⟩ : Rec)].filter
        (fun r => r.category == str "Mercado")).map (fun r => r.amount)).sum)))] ∈
      aggregate_by_category [⟨str "2025-01-05", str "x", 5, str "Mercado"⟩] ∧
    (∃ t ∈ [(⟨str "2025-01-01", -5, str "e", str "d", str "Pagamento cartão",
        str "saida"⟩ : ContaRec)].filter (fun t => t.amount < 0),
      contaCatKey t = str "Pagamento cartão") ∧
    ((100 : ℚ) ≠ 0) ∧
    [(str "category", JVal.str (str "Pagamento cartão")),
     (str "total", JVal.num (pyRound2 100))] ∈
      conta_by_category
        [⟨str "2025-01-01", -5, str "e", str "d", str "Pagamento cartão", str "saida"⟩]
        100 :=
  ⟨by decide,
   c7_category_totals.1 [⟨str "2025-01-05", str "x", 5, str "Mercado"⟩] (str "Mercado")
     (by decide),
   by decide,
   by norm_num,
   (c7_category_totals.2.2.2
      [⟨str "2025-01-01", -5, str "e", str "d", str "Pagamento cartão", str "saida"⟩]
      100 (str "Pagamento cartão") (by decide)).2 rfl (by norm_num)⟩

/-- Counterexample to C7 as stated: a card record with a negative amount is
summed signed, not in absolute value — the `Outros` total comes out `-5`,
not `5`. -/
theorem c7_counterexample :
    aggregate_by_category [(⟨str "2025-01-05", str "x", -5, str "Outros"⟩ : Rec)] =
      [[(str "category", JVal.str (str "Outros")), (str "total", JVal.num (-5))]] ∧
    ((([(⟨str "2025-01-05", str "x", -5, str "Outros"⟩ : Rec)].map
        (fun r => |r.amount|)).sum) = 5) ∧
    ((-5 : ℚ) ≠ 5) := by
  decide

/-- C1 (amended): on every effective record set with two-decimal amounts
(as all loaded records have), the server-side `aggregate_by_month` and
`aggregate_by_category` coincide field for field with the client-side
`aggregateByMonth` and `aggregateByCategory`; the title aggregates do not
coincide (see the counterexample: Python rows carry a `count` field and
omit `cum_pct`/`abc` when the grand total is not positive, JavaScript rows
omit `count`, always carry `cum_pct`/`abc`, and round `cum_pct` ties
upward where Python rounds half to even). -/
theorem c1_month_category_equivalence (rs : List Rec) (h : ∀ r ∈ rs, IsCent r.amount) :
    aggregate_by_month rs = aggregateByMonth rs ∧
    aggregate_by_category rs = aggregateByCategory rs := by
  constructor
  · unfold aggregate_by_month aggregateByMonth
    apply List.map_congr_left
    intro p hp
    have hp2 : p ∈ groupSum (fun r => r.date.take 7) (fun r => r.amount) rs :=
      (List.perm_insertionSort keyLe _).subset hp
    have hc := groupSum_cent (fun r => r.date.take 7) (fun r => r.amount)
      (fun r hr => h r hr) p hp2
    rw [pyRound2_cent hc, jsRound2_cent hc]
  · unfold aggregate_by_category aggregateByCategory
    unfold sortJByTotalDesc
    apply congrArg
    apply List.map_congr_left
    intro p hp
    have hc := groupSum_cent (fun r => r.category) (fun r => r.amount)
      (fun r hr => h r hr) p hp
    rw [pyRound2_cent hc, jsRound2_cent hc]

/-- Witness for C1 on a concrete two-decimal record set. -/
theorem c1_month_category_equivalence_witness :
    (∀ r ∈ [(⟨str "2025-01-05", str "x", 5, str "Mercado"⟩ : Rec),
            ⟨str "2025-02-06", str "y", 1056/100, str "Outros"⟩], IsCent r.amount) ∧
    aggregate_by_month [(⟨str "2025-01-05", str "x", 5, str "Mercado"⟩ : Rec),
        ⟨str "2025-02-06", str "y", 1056/100, str "Outros"⟩] =
      aggregateByMonth [(⟨str "2025-01-05", str "x", 5, str "Mercado"⟩ : Rec),
        ⟨str "2025-02-06", str "y", 1056/100, str "Outros"⟩] ∧
    aggregate_by_category [(⟨str "2025-01-05", str "x", 5, str "Mercado"⟩ : Rec),
        ⟨str "2025-02-06", str "y", 1056/100, str "Outros"⟩] =
      aggregateByCategory [(⟨str "2025-01-05", str "x", 5, str "Mercado"⟩ : Rec),
        ⟨str "2025-02-06", str "y", 1056/100, str "Outros"⟩] := by
  have hc : ∀ r ∈ [(⟨str "2025-01-05", str "x", 5, str "Mercado"⟩ : Rec),
      ⟨str "2025-02-06", str "y", 1056/100, str "Outros"⟩], IsCent r.amount := by
    intro r hr
    rcases List.mem_cons.mp hr with h1 | h1
    · rw [h1]
      exact ⟨500, by norm_num⟩
    · rcases List.mem_cons.mp h1 with h2 | h2
      · rw [h2]
        exact ⟨1056, by norm_num⟩
      · simp at h2
  have := c1_month_category_equivalence _ hc
  exact ⟨hc, this.1, this.2⟩

/-- Counterexample to C1 as stated: the title aggregates differ field for
field — Python rows carry a `count` field that JavaScript rows lack; on a
half-of-a-tenth cumulative-percentage tie (80.25 of 100) Python stores
80.2 and JavaScript 80.3; and on a zero grand total Python adds no
`cum_pct`/`abc` fields while JavaScript emits `cum_pct = 0`, `abc = "A"`. -/
theorem c1_counterexample :
    by_title_abc [(⟨str "2025-01-05", str "a", 1, str "Outros"⟩ : Rec)] ≠
      aggregateByTitle [(⟨str "2025-01-05", str "a", 1, str "Outros"⟩ : Rec)] ∧
    (cumPcts (by_title_abc [(⟨str "2025-01-05", str "a", 8025/100, str "Outros"⟩ : Rec),
        ⟨str "2025-01-05", str "b", 1975/100, str "Outros"⟩])).head? = some (802/10) ∧
    (cumPcts (aggregateByTitle [(⟨str "2025-01-05", str "a", 8025/100, str "Outros"⟩ : Rec),
        ⟨str "2025-01-05", str "b", 1975/100, str "Outros"⟩])).head? = some (803/10) ∧
    ((802 : ℚ)/10 ≠ 803/10) ∧
    by_title_abc [(⟨str "2025-01-05", str "z", 0, str "Outros"⟩ : Rec)] =
      aggregate_by_title [(⟨str "2025-01-05", str "z", 0, str "Outros"⟩ : Rec)] ∧
    jGet ((aggregateByTitle [(⟨str "2025-01-05", str "z", 0, str "Outros"⟩ : Rec)]).headD [])
        (str "abc") = JVal.str (str "A") := by
  decide
